import Mathlib

/-!
# Payment-channel service: embedding and verified properties

A shallow embedding of `service/globalservice.go`, of the message
declarations of `bean/messages.go` and of `Client.CheckMultiSign` of
`rpc/rpcclient.go`.

* The Go type `error` is `Option String` (`none` is `nil`, `some m` an error whose
  `Error()` text is `m`).
* `float64` is a type parameter `F`: the service only copies amounts, adds
  two of them and returns the constant `0`, so every statement holds for any
  carrier with those operations.  Concrete evaluations use `ℚ` on values
  (small integers) on which float64 arithmetic is exact.
* The JSON reader `github.com/tidwall/gjson`, the chain-node RPC client and
  the clock are external collaborators: they are parameters of the model.
  The RPC client and the clock are stateful, so every call threads a state
  `σ` of the outside world.
-/

set_option autoImplicit false

/-- The Go type `error`: `none` is `nil`, `some m` is an error with message `m`. -/
abbrev Error := Option String

/-- The Go type `time.Time`, as nanoseconds since the epoch. -/
abbrev Time := Int

/-- The Go conversion `uint32(i)` of an `int64`: the low 32 bits. -/
def uint32 (i : Int) : Nat := (i % 2 ^ 32).toNat

namespace gjson

/-- The operations of `github.com/tidwall/gjson` used by the service, over a
type `R` of results (`gjson.Result`) and a float64 carrier `F`.
`Get r key` is `r.Get(key)` for a literal key, and the package-level
`gjson.Get(json, key)` is `Get (Parse json) key`. -/
structure Lib (R F : Type) where
  /-- The call `gjson.Parse(json)`. -/
  Parse : String → R
  /-- The call `r.Get(key)`. -/
  Get : R → String → R
  /-- The call `r.IsArray()`. -/
  IsArray : R → Bool
  /-- The call `r.Array()`. -/
  Array : R → List R
  /-- The call `r.Int()`. -/
  Int : R → Int
  /-- The call `r.Float()`. -/
  Float : R → F
  /-- The call `r.String()`. -/
  String : R → String

end gjson

namespace rpc

/-- The chain-node calls of `rpc.Client` used by the service.  Each call
returns the answer of the node (`Except.error m` for a non-nil Go error with text
`m`) and the next state of the outside world. -/
structure Client (σ : Type) where
  CreateMultiSig : Nat → List String → σ → Except String String × σ
  GetAddressInfo : String → σ → Except String String × σ
  GetTransactionById : String → σ → Except String String × σ
  DecodeRawTransaction : String → σ → Except String String × σ

end rpc

namespace tool

/-- Modelled from the spec: `tool.CheckIsString` is declared outside the given
sources.  The HTLC key of the split is optional, and `getAddressFromPubKey` reports
`"empty pubKey"` exactly when the check fails: the check holds for a non-empty
string and leaves it unchanged. -/
def CheckIsString (str : String) : Bool := str.length != 0

end tool

namespace bean

/-- Modelled from the spec: `bean.ChannelID` is declared outside the given
sources; a channel id is a byte string derived from the channel address. -/
abbrev ChannelID := List Nat

/-- The record `bean.User`, with the field `PeerId` that the service reads
(`bean/messages.go` declares the record without it; `State` is an enum). -/
structure User where
  Id : Int
  PeerId : String
  Email : String
  Password : String
  State : Int
deriving DecidableEq, Repr

end bean

namespace dao

/-- Modelled from the spec: `dao.TxInfoState` is declared outside the given
sources, which name only `TxInfoState_CreateAndSign` (the signed, active
state).  The other states follow the commitment lifecycle of the spec
(Created → Signed → Revoked → Closed); a fresh record is in state Created. -/
inductive TxInfoState where
  | TxInfoState_Create
  | TxInfoState_CreateAndSign
  | TxInfoState_Revoked
  | TxInfoState_Closed
deriving DecidableEq, Repr

/-- Modelled from the spec: `dao.ChannelInfo` is declared outside the given
sources; these are the fields the service reads. -/
structure ChannelInfo where
  PeerIdA : String
  PeerIdB : String
  ChannelId : bean.ChannelID
  AddressA : String
  AddressB : String
  ChannelAddress : String
deriving DecidableEq, Repr

/-- Modelled from the spec: `dao.FundingTransaction` is declared outside the
given sources; these are the fields the service reads. -/
structure FundingTransaction (F : Type) where
  PropertyId : Int
  FundingTxid : String
  FundingOutputIndex : Nat
  AmountA : F
  AmountB : F
deriving DecidableEq, Repr

/-- Modelled from the spec: `dao.CommitmentTransaction` is declared outside the
given sources; these are the fields the service reads or writes, with the
record id and the lifecycle state. -/
structure CommitmentTransaction (F : Type) where
  Id : Int
  PeerIdA : String
  PeerIdB : String
  ChannelId : bean.ChannelID
  PropertyId : Int
  Owner : String
  InputTxid : String
  InputVout : Nat
  InputAmount : F
  RSMCTempAddressPubKey : String
  RSMCMultiAddress : String
  RSMCRedeemScript : String
  RSMCMultiAddressScriptPubKey : String
  RSMCTxid : String
  HTLCTempAddressPubKey : String
  HTLCMultiAddress : String
  HTLCRedeemScript : String
  HTLCMultiAddressScriptPubKey : String
  AmountToRSMC : F
  AmountToOther : F
  AmountToHtlc : F
  CurrState : TxInfoState
  CreateBy : String
  CreateAt : Time
  LastEditTime : Time
deriving DecidableEq, Repr

/-- The Go zero value `dao.CommitmentTransaction{}`. -/
def CommitmentTransaction.zero {F : Type} [Zero F] : CommitmentTransaction F :=
  { Id := 0, PeerIdA := "", PeerIdB := "", ChannelId := [], PropertyId := 0, Owner := "",
    InputTxid := "", InputVout := 0, InputAmount := 0,
    RSMCTempAddressPubKey := "", RSMCMultiAddress := "", RSMCRedeemScript := "",
    RSMCMultiAddressScriptPubKey := "", RSMCTxid := "",
    HTLCTempAddressPubKey := "", HTLCMultiAddress := "", HTLCRedeemScript := "",
    HTLCMultiAddressScriptPubKey := "",
    AmountToRSMC := 0, AmountToOther := 0, AmountToHtlc := 0,
    CurrState := TxInfoState.TxInfoState_Create,
    CreateBy := "", CreateAt := 0, LastEditTime := 0 }

/-- Modelled from the spec: `dao.RevocableDeliveryTransaction` is declared
outside the given sources; these are the fields `createRDTx` writes. -/
structure RevocableDeliveryTransaction (F : Type) where
  CommitmentTxId : Int
  PeerIdA : String
  PeerIdB : String
  ChannelId : bean.ChannelID
  PropertyId : Int
  Owner : String
  InputTxid : String
  InputVout : Nat
  InputAmount : F
  OutputAddress : String
  Sequence : Int
  Amount : F
  CreateBy : String
  CreateAt : Time
  LastEditTime : Time
deriving DecidableEq, Repr

/-- Modelled from the spec: `dao.BreachRemedyTransaction` is declared outside
the given sources; these are the fields `createBRTx` writes. -/
structure BreachRemedyTransaction (F : Type) where
  CommitmentTxId : Int
  PeerIdA : String
  PeerIdB : String
  ChannelId : bean.ChannelID
  PropertyId : Int
  Owner : String
  InputTxid : String
  InputVout : Nat
  InputAmount : F
  Amount : F
  CreateBy : String
  CreateAt : Time
  LastEditTime : Time
deriving DecidableEq, Repr

end dao

namespace service

/-- The external collaborators of the service: the JSON reader, the package
variable `rpcClient` and the clock `time.Now`. -/
structure Env (σ R F : Type) where
  gj : gjson.Lib R F
  rpcClient : rpc.Client σ
  Now : σ → Time × σ

/-- The `commitmentOutputBean` record: the split of a commitment. -/
structure commitmentOutputBean (F : Type) where
  RsmcTempPubKey : String
  AmountToRsmc : F
  ToChannelPubKey : String
  ToChannelAddress : String
  AmountToOther : F
  HtlcTempPubKey : String
  AmountToHtlc : F
deriving DecidableEq, Repr

/-- The address of the funder chosen by `checkBtcTxHex` and `checkOmniTxHex`:
`AddressA`, replaced by `AddressB` when the peer id is `PeerIdB`. -/
def funderAddress (channelInfo : dao.ChannelInfo) (peerId : String) : String :=
  if peerId == channelInfo.PeerIdB then channelInfo.AddressB else channelInfo.AddressA

/-- The function `checkOmniTxHex`: the result is the Go result tuple
`(fundingTxid, amountA, propertyId, err)`. -/
def checkOmniTxHex {R F : Type} [Zero F] (gj : gjson.Lib R F) (fundingTxHexDecode : String)
    (channelInfo : dao.ChannelInfo) (user : bean.User) : String × F × Int × Error :=
  let jsonOmniTxHexDecode := gj.Parse fundingTxHexDecode
  let fundingTxid := gj.String (gj.Get jsonOmniTxHexDecode "txid")
  let funderAddress := funderAddress channelInfo user.PeerId
  let sendingAddress := gj.String (gj.Get jsonOmniTxHexDecode "sendingaddress")
  if sendingAddress != funderAddress then
    ("", 0, 0, some "wrong Tx input")
  else
    let referenceAddress := gj.String (gj.Get jsonOmniTxHexDecode "referenceaddress")
    if referenceAddress != channelInfo.ChannelAddress then
      ("", 0, 0, some "wrong Tx output")
    else
      let amountA := gj.Float (gj.Get jsonOmniTxHexDecode "amount")
      let propertyId := gj.Int (gj.Get jsonOmniTxHexDecode "propertyid")
      (fundingTxid, amountA, propertyId, none)


/-- The tail of `createCommitmentTx` (lines 113-121): the amounts of the split,
the creator and the two clock readings. -/
def createCommitmentTx.finish {σ R F : Type} (env : Env σ R F)
    (commitmentTxInfo : dao.CommitmentTransaction F) (outputBean : commitmentOutputBean F)
    (user : bean.User) (s : σ) : (Option (dao.CommitmentTransaction F) × Error) × σ :=
  let commitmentTxInfo := { commitmentTxInfo with
    AmountToRSMC := outputBean.AmountToRsmc
    AmountToOther := outputBean.AmountToOther
    AmountToHtlc := outputBean.AmountToHtlc
    CreateBy := user.PeerId }
  let t1 := env.Now s
  let t2 := env.Now t1.2
  ((some { commitmentTxInfo with CreateAt := t1.1, LastEditTime := t2.1 }, none), t2.2)

/-- The function `createCommitmentTx`: the result is the Go result pair
`(*dao.CommitmentTransaction, error)` (`none` is the nil pointer) and the next
state of the outside world. -/
def createCommitmentTx {σ R F : Type} [Zero F] [Add F] (env : Env σ R F) (owner : String)
    (channelInfo : dao.ChannelInfo) (fundingTransaction : dao.FundingTransaction F)
    (outputBean : commitmentOutputBean F) (user : bean.User) (s : σ) :
    (Option (dao.CommitmentTransaction F) × Error) × σ :=
  let commitmentTxInfo : dao.CommitmentTransaction F := { dao.CommitmentTransaction.zero with
    PeerIdA := channelInfo.PeerIdA
    PeerIdB := channelInfo.PeerIdB
    ChannelId := channelInfo.ChannelId
    PropertyId := fundingTransaction.PropertyId
    Owner := owner
    InputTxid := fundingTransaction.FundingTxid
    InputVout := fundingTransaction.FundingOutputIndex
    InputAmount := fundingTransaction.AmountA + fundingTransaction.AmountB
    RSMCTempAddressPubKey := outputBean.RsmcTempPubKey }
  match env.rpcClient.CreateMultiSig 2
      [commitmentTxInfo.RSMCTempAddressPubKey, outputBean.ToChannelPubKey] s with
  | (Except.error err, s1) => ((none, some err), s1)
  | (Except.ok multiAddr, s1) =>
    let commitmentTxInfo := { commitmentTxInfo with
      RSMCMultiAddress := env.gj.String (env.gj.Get (env.gj.Parse multiAddr) "address")
      RSMCRedeemScript := env.gj.String (env.gj.Get (env.gj.Parse multiAddr) "redeemScript") }
    match env.rpcClient.GetAddressInfo commitmentTxInfo.RSMCMultiAddress s1 with
    | (Except.error err, s2) => ((none, some err), s2)
    | (Except.ok json, s2) =>
      let commitmentTxInfo := { commitmentTxInfo with
        RSMCMultiAddressScriptPubKey :=
          env.gj.String (env.gj.Get (env.gj.Parse json) "scriptPubKey") }
      if tool.CheckIsString outputBean.HtlcTempPubKey then
        let commitmentTxInfo := { commitmentTxInfo with
          HTLCTempAddressPubKey := outputBean.HtlcTempPubKey }
        match env.rpcClient.CreateMultiSig 2
            [commitmentTxInfo.HTLCTempAddressPubKey, outputBean.ToChannelPubKey] s2 with
        | (Except.error err, s3) => ((none, some err), s3)
        | (Except.ok multiAddr, s3) =>
          let commitmentTxInfo := { commitmentTxInfo with
            HTLCMultiAddress := env.gj.String (env.gj.Get (env.gj.Parse multiAddr) "address")
            HTLCRedeemScript :=
              env.gj.String (env.gj.Get (env.gj.Parse multiAddr) "redeemScript") }
          match env.rpcClient.GetAddressInfo commitmentTxInfo.HTLCMultiAddress s3 with
          | (Except.error err, s4) => ((none, some err), s4)
          | (Except.ok json, s4) =>
            let commitmentTxInfo := { commitmentTxInfo with
              HTLCMultiAddressScriptPubKey :=
                env.gj.String (env.gj.Get (env.gj.Parse json) "scriptPubKey") }
            createCommitmentTx.finish env commitmentTxInfo outputBean user s4
      else
        createCommitmentTx.finish env commitmentTxInfo outputBean user s2

/-- The function `createRDTx`: the result is the Go result pair
`(*dao.RevocableDeliveryTransaction, error)` and the next state of the
outside world (the clock is read twice). -/
def createRDTx {σ R F : Type} (env : Env σ R F) (owner : String)
    (channelInfo : dao.ChannelInfo) (commitmentTxInfo : dao.CommitmentTransaction F)
    (toAddress : String) (user : bean.User) (s : σ) :
    (Option (dao.RevocableDeliveryTransaction F) × Error) × σ :=
  let t1 := env.Now s
  let t2 := env.Now t1.2
  ((some {
      CommitmentTxId := commitmentTxInfo.Id
      PeerIdA := channelInfo.PeerIdA
      PeerIdB := channelInfo.PeerIdB
      ChannelId := channelInfo.ChannelId
      PropertyId := commitmentTxInfo.PropertyId
      Owner := owner
      InputTxid := commitmentTxInfo.RSMCTxid
      InputVout := 0
      InputAmount := commitmentTxInfo.AmountToRSMC
      OutputAddress := toAddress
      Sequence := 1000
      Amount := commitmentTxInfo.AmountToRSMC
      CreateBy := user.PeerId
      CreateAt := t1.1
      LastEditTime := t2.1 }, none), t2.2)

/-- The function `createBRTx`: the result is the Go result pair
`(*dao.BreachRemedyTransaction, error)` and the next state of the outside
world (the clock is read twice). -/
def createBRTx {σ R F : Type} (env : Env σ R F) (owner : String)
    (channelInfo : dao.ChannelInfo) (commitmentTxInfo : dao.CommitmentTransaction F)
    (user : bean.User) (s : σ) :
    (Option (dao.BreachRemedyTransaction F) × Error) × σ :=
  let t1 := env.Now s
  let t2 := env.Now t1.2
  ((some {
      CommitmentTxId := commitmentTxInfo.Id
      PeerIdA := channelInfo.PeerIdA
      PeerIdB := channelInfo.PeerIdB
      ChannelId := channelInfo.ChannelId
      PropertyId := commitmentTxInfo.PropertyId
      Owner := owner
      InputTxid := commitmentTxInfo.RSMCTxid
      InputVout := 0
      InputAmount := commitmentTxInfo.AmountToRSMC
      Amount := commitmentTxInfo.AmountToRSMC
      CreateBy := user.PeerId
      CreateAt := t1.1
      LastEditTime := t2.1 }, none), t2.2)

/-- The inner loops of `checkBtcTxHex`: does `item` list `address` among its
`scriptPubKey.addresses`? -/
def listsAddress {R F : Type} (gj : gjson.Lib R F) (address : String) (item : R) : Bool :=
  (gj.Array (gj.Get (gj.Get item "scriptPubKey") "addresses")).any
    (fun subItem => gj.String subItem == address)

/-- The input side of `checkBtcTxHex` (lines 176-223).  `none` is a run-time
panic (the index expression `Array()[0]` out of range); otherwise the error of
the check (`none` when the input is accepted) and the next state. -/
def checkBtcTxHex.vin {σ R F : Type} (env : Env σ R F) (jsonFundingTxHexDecode : R)
    (channelInfo : dao.ChannelInfo) (peerId : String) (s : σ) : Option (Error × σ) :=
  if env.gj.IsArray (env.gj.Get jsonFundingTxHexDecode "vin") == false then
    some (some "wrong Tx input vin", s)
  else
    match (env.gj.Array (env.gj.Get jsonFundingTxHexDecode "vin"))[0]? with
    | none => none
    | some vin0 =>
      let inTxid := env.gj.String (env.gj.Get vin0 "txid")
      match env.rpcClient.GetTransactionById inTxid s with
      | (Except.error err, s1) => some (some ("wrong input: " ++ err), s1)
      | (Except.ok inputTx, s1) =>
        let jsonInputTxDecode := env.gj.Parse inputTx
        match env.rpcClient.DecodeRawTransaction
            (env.gj.String (env.gj.Get jsonInputTxDecode "hex")) s1 with
        | (Except.error err, s2) => some (some ("wrong input: " ++ err), s2)
        | (Except.ok inputHexDecode, s2) =>
          let funderAddress := funderAddress channelInfo peerId
          let jsonInputHexDecode := env.gj.Parse inputHexDecode
          let flag :=
            if env.gj.IsArray (env.gj.Get jsonInputHexDecode "vout") then
              (env.gj.Array (env.gj.Get jsonInputHexDecode "vout")).any
                (listsAddress env.gj funderAddress)
            else false
          if flag == false then
            some (some ("wrong vin " ++
              env.gj.String (env.gj.Get jsonFundingTxHexDecode "vin")), s2)
          else some (none, s2)

/-- The output side of `checkBtcTxHex` (lines 225-251): the Go result tuple
`(fundingTxid, amountA, fundingOutputIndex, err)`. -/
def checkBtcTxHex.vout {R F : Type} [Zero F] (gj : gjson.Lib R F)
    (jsonFundingTxHexDecode : R) (channelInfo : dao.ChannelInfo) (fundingTxid : String) :
    String × F × Nat × Error :=
  if gj.IsArray (gj.Get jsonFundingTxHexDecode "vout") == false then
    ("", 0, 0, some "wrong Tx vout")
  else
    match (gj.Array (gj.Get jsonFundingTxHexDecode "vout")).find?
        (listsAddress gj channelInfo.ChannelAddress) with
    | some item =>
      (fundingTxid, gj.Float (gj.Get item "value"), uint32 (gj.Int (gj.Get item "n")), none)
    | none =>
      ("", 0, 0, some ("wrong vout " ++ gj.String (gj.Get jsonFundingTxHexDecode "vout")))

/-- The function `checkBtcTxHex`.  `none` is a run-time panic; otherwise the Go
result tuple `(fundingTxid, amountA, fundingOutputIndex, err)` and the next
state of the outside world. -/
def checkBtcTxHex {σ R F : Type} [Zero F] (env : Env σ R F) (btcFeeTxHexDecode : String)
    (channelInfo : dao.ChannelInfo) (peerId : String) (s : σ) :
    Option ((String × F × Nat × Error) × σ) :=
  let jsonFundingTxHexDecode := env.gj.Parse btcFeeTxHexDecode
  let fundingTxid := env.gj.String (env.gj.Get jsonFundingTxHexDecode "txid")
  match checkBtcTxHex.vin env jsonFundingTxHexDecode channelInfo peerId s with
  | none => none
  | some (some err, s1) => some (("", 0, 0, some err), s1)
  | some (none, s1) =>
    some (checkBtcTxHex.vout env.gj jsonFundingTxHexDecode channelInfo fundingTxid, s1)

end service

namespace bytes

/-- The test `bytes.Compare(a, b) <= 0` of the Go library: the lexicographic
order of byte sequences. -/
def le : List Nat → List Nat → Bool
  | [], _ => true
  | _ :: _, [] => false
  | x :: xs, y :: ys => if x < y then true else if y < x then false else le xs ys

/-- The bytes of an ASCII text. -/
def ofText (text : String) : List Nat := text.data.map Char.toNat

end bytes

namespace storm

/-- A query of `github.com/asdine/storm` over the records of one bucket:
the records in storage order, the conjunction of the matchers given to
`Select`, the ordering field of `OrderBy` and the `Reverse` flag.  The store
orders a field that is neither a number nor a string (such as a `time.Time`)
by the bytes its codec writes for the field, so the ordering field is given
by its encoding. -/
structure Query (α : Type) where
  records : List α
  matchers : List (α → Bool)
  orderBy : Option (α → List Nat)
  reverse : Bool

/-- The call `db.Select(matchers...)`. -/
def Select {α : Type} (db : List α) (matchers : List (α → Bool)) : Query α :=
  { records := db, matchers := matchers, orderBy := none, reverse := false }

/-- The call `query.OrderBy(field)`, with the encoding of the field. -/
def Query.OrderBy {α : Type} (q : Query α) (field : α → List Nat) : Query α :=
  { q with orderBy := some field }

/-- The call `query.Reverse()`. -/
def Query.Reverse {α : Type} (q : Query α) : Query α :=
  { q with reverse := true }

/-- The records a query yields, in order: those accepted by every matcher,
sorted by the encoded ordering field in byte order (ascending) and reversed
when asked. -/
def Query.run {α : Type} (q : Query α) : List α :=
  let found := q.records.filter (fun a => q.matchers.all (fun m => m a))
  let sorted := match q.orderBy with
    | some field => found.insertionSort (fun a b => bytes.le (field a) (field b) = true)
    | none => found
  if q.reverse then sorted.reverse else sorted

/-- The call `query.First(&dst)`: the first record of the query, or `storm.ErrNotFound`
(`"not found"`), which leaves `dst` unchanged. -/
def Query.First {α : Type} (q : Query α) (dst : α) : α × Error :=
  match q.run.head? with
  | some a => (a, none)
  | none => (dst, some "not found")

end storm

namespace service

/-- The function `getLatestCommitmentTx`, over the stored commitment records
`db`: the Go result pair `(commitmentTxInfo, err)`.  `codec` is the text the
codec of the store writes for a `time.Time`: the field `CreateAt` is a
`time.Time`, which the query orders by that text. -/
def getLatestCommitmentTx {F : Type} [Zero F] (codec : Time → String)
    (db : List (dao.CommitmentTransaction F)) (channelId : bean.ChannelID)
    (owner : String) : dao.CommitmentTransaction F × Error :=
  (((storm.Select db
      [fun c => c.ChannelId == channelId, fun c => c.Owner == owner,
       fun c => c.CurrState == dao.TxInfoState.TxInfoState_CreateAndSign]).OrderBy
      (fun c => bytes.ofText (codec c.CreateAt))).Reverse).First
    dao.CommitmentTransaction.zero

end service

namespace json

/-- A JSON value as `encoding/json` writes a field: a number, a string, or the
encoding of a byte sequence. -/
inductive Value where
  | Number (n : Int)
  | String (s : String)
  | Bytes (b : List Nat)
deriving DecidableEq, Repr

/-- Is a Go identifier exported (does it start with an upper-case letter)?
`encoding/json` reads and writes exported struct fields only. -/
def IsExported (name : String) : Bool := name.front.isUpper

/-- The member `encoding/json` writes for a struct field with Go name `name`,
JSON key `key` and encoded value `v`: nothing for an unexported field. -/
def encodeField (name key : String) (v : Value) : List (String × Value) :=
  if IsExported name then [(key, v)] else []

/-- The value `encoding/json` leaves in a struct field with Go name `name` and
JSON key `key` when decoding the object `data` into a struct whose field holds
`old`: the decoded member when the field is exported and the member is there,
`old` otherwise. -/
def decodeField {α : Type} (data : List (String × Value)) (name key : String)
    (decode : Value → Option α) (old : α) : α :=
  if IsExported name then
    match data.lookup key with
    | some v => (decode v).getD old
    | none => old
  else old

/-- Decode a JSON number into a Go integer field. -/
def toInt : Value → Option Int
  | Value.Number n => some n
  | _ => none

/-- Decode a JSON number into a Go unsigned integer field. -/
def toUint : Value → Option Nat
  | Value.Number n => if 0 ≤ n then some n.toNat else none
  | _ => none

/-- Decode a JSON string into a Go string field. -/
def toStr : Value → Option String
  | Value.String s => some s
  | _ => none

/-- Decode the encoding of a byte sequence. -/
def toBytes : Value → Option (List Nat)
  | Value.Bytes b => some b
  | _ => none

end json

namespace chainhash

/-- Modelled from the spec: the package `bean/chainhash` is outside the given
sources; its `ChainHash`, `Hash`, `Point` and `Signauture` are byte
sequences. -/
abbrev ChainHash := List Nat

/-- See `ChainHash`. -/
abbrev Hash := List Nat

/-- See `ChainHash`. -/
abbrev Point := List Nat

/-- See `ChainHash`. -/
abbrev Signauture := List Nat

end chainhash

namespace bean

/-- The envelope `bean.Message`; its field `Type` is written `Type_`. -/
structure Message where
  Type_ : Int
  Sender : String
  Recipient : String
  Data : String
deriving DecidableEq, Repr

/-- The JSON object `json.Marshal` writes for a `Message`. -/
def Message.Marshal (v : Message) : List (String × json.Value) :=
  json.encodeField "Type" "type" (json.Value.Number v.Type_) ++
  json.encodeField "Sender" "sender" (json.Value.String v.Sender) ++
  json.encodeField "Recipient" "recipient" (json.Value.String v.Recipient) ++
  json.encodeField "Data" "data" (json.Value.String v.Data)

/-- The `Message` that `json.Unmarshal(data, &dst)` leaves in `dst`. -/
def Message.Unmarshal (data : List (String × json.Value)) (dst : Message) : Message :=
  { Type_ := json.decodeField data "Type" "type" json.toInt dst.Type_
    Sender := json.decodeField data "Sender" "sender" json.toStr dst.Sender
    Recipient := json.decodeField data "Recipient" "recipient" json.toStr dst.Recipient
    Data := json.decodeField data "Data" "data" json.toStr dst.Data }

/-- The Go zero value `Message{}`. -/
def Message.zero : Message := { Type_ := 0, Sender := "", Recipient := "", Data := "" }

/-- The payload `bean.OpenChannelInfo` (type -32); `AcceptChannelInfo` (type
-33) is declared as the same struct. -/
structure OpenChannelInfo where
  Chain_hash : chainhash.ChainHash
  Temporary_channel_id : chainhash.Hash
  funding_satoshis : Nat
  push_msat : Nat
  dust_limit_satoshis : Nat
  max_htlc_value_in_flight_msat : Nat
  channel_reserve_satoshis : Nat
  htlc_minimum_msat : Nat
  feerate_per_kw : Nat
  to_self_delay : Nat
  max_accepted_htlcs : Nat
  funding_pubkey : chainhash.Point
  revocation_basepoint : chainhash.Point
  payment_basepoint : chainhash.Point
  delayed_payment_basepoint : chainhash.Point
  htlc_basepoint : chainhash.Point
deriving DecidableEq, Repr

/-- The payload `bean.AcceptChannelInfo`: `type AcceptChannelInfo OpenChannelInfo`. -/
abbrev AcceptChannelInfo := OpenChannelInfo

/-- The JSON object `json.Marshal` writes for an `OpenChannelInfo`. -/
def OpenChannelInfo.Marshal (v : OpenChannelInfo) : List (String × json.Value) :=
  json.encodeField "Chain_hash" "chain_hash" (json.Value.Bytes v.Chain_hash) ++
  json.encodeField "Temporary_channel_id" "temporary_channel_id"
    (json.Value.Bytes v.Temporary_channel_id) ++
  json.encodeField "funding_satoshis" "funding_satoshis" (json.Value.Number v.funding_satoshis) ++
  json.encodeField "push_msat" "push_msat" (json.Value.Number v.push_msat) ++
  json.encodeField "dust_limit_satoshis" "dust_limit_satoshis"
    (json.Value.Number v.dust_limit_satoshis) ++
  json.encodeField "max_htlc_value_in_flight_msat" "max_htlc_value_in_flight_msat"
    (json.Value.Number v.max_htlc_value_in_flight_msat) ++
  json.encodeField "channel_reserve_satoshis" "channel_reserve_satoshis"
    (json.Value.Number v.channel_reserve_satoshis) ++
  json.encodeField "htlc_minimum_msat" "htlc_minimum_msat"
    (json.Value.Number v.htlc_minimum_msat) ++
  json.encodeField "feerate_per_kw" "feerate_per_kw" (json.Value.Number v.feerate_per_kw) ++
  json.encodeField "to_self_delay" "to_self_delay" (json.Value.Number v.to_self_delay) ++
  json.encodeField "max_accepted_htlcs" "max_accepted_htlcs"
    (json.Value.Number v.max_accepted_htlcs) ++
  json.encodeField "funding_pubkey" "funding_pubkey" (json.Value.Bytes v.funding_pubkey) ++
  json.encodeField "revocation_basepoint" "revocation_basepoint"
    (json.Value.Bytes v.revocation_basepoint) ++
  json.encodeField "payment_basepoint" "payment_basepoint"
    (json.Value.Bytes v.payment_basepoint) ++
  json.encodeField "delayed_payment_basepoint" "delayed_payment_basepoint"
    (json.Value.Bytes v.delayed_payment_basepoint) ++
  json.encodeField "htlc_basepoint" "htlc_basepoint" (json.Value.Bytes v.htlc_basepoint)

/-- The `OpenChannelInfo` that `json.Unmarshal(data, &dst)` leaves in `dst`. -/
def OpenChannelInfo.Unmarshal (data : List (String × json.Value)) (dst : OpenChannelInfo) :
    OpenChannelInfo :=
  { Chain_hash := json.decodeField data "Chain_hash" "chain_hash" json.toBytes dst.Chain_hash
    Temporary_channel_id := json.decodeField data "Temporary_channel_id"
      "temporary_channel_id" json.toBytes dst.Temporary_channel_id
    funding_satoshis := json.decodeField data "funding_satoshis" "funding_satoshis"
      json.toUint dst.funding_satoshis
    push_msat := json.decodeField data "push_msat" "push_msat" json.toUint dst.push_msat
    dust_limit_satoshis := json.decodeField data "dust_limit_satoshis" "dust_limit_satoshis"
      json.toUint dst.dust_limit_satoshis
    max_htlc_value_in_flight_msat := json.decodeField data "max_htlc_value_in_flight_msat"
      "max_htlc_value_in_flight_msat" json.toUint dst.max_htlc_value_in_flight_msat
    channel_reserve_satoshis := json.decodeField data "channel_reserve_satoshis"
      "channel_reserve_satoshis" json.toUint dst.channel_reserve_satoshis
    htlc_minimum_msat := json.decodeField data "htlc_minimum_msat" "htlc_minimum_msat"
      json.toUint dst.htlc_minimum_msat
    feerate_per_kw := json.decodeField data "feerate_per_kw" "feerate_per_kw"
      json.toUint dst.feerate_per_kw
    to_self_delay := json.decodeField data "to_self_delay" "to_self_delay"
      json.toUint dst.to_self_delay
    max_accepted_htlcs := json.decodeField data "max_accepted_htlcs" "max_accepted_htlcs"
      json.toUint dst.max_accepted_htlcs
    funding_pubkey := json.decodeField data "funding_pubkey" "funding_pubkey"
      json.toBytes dst.funding_pubkey
    revocation_basepoint := json.decodeField data "revocation_basepoint"
      "revocation_basepoint" json.toBytes dst.revocation_basepoint
    payment_basepoint := json.decodeField data "payment_basepoint" "payment_basepoint"
      json.toBytes dst.payment_basepoint
    delayed_payment_basepoint := json.decodeField data "delayed_payment_basepoint"
      "delayed_payment_basepoint" json.toBytes dst.delayed_payment_basepoint
    htlc_basepoint := json.decodeField data "htlc_basepoint" "htlc_basepoint"
      json.toBytes dst.htlc_basepoint }

/-- The Go zero value `OpenChannelInfo{}`. -/
def OpenChannelInfo.zero : OpenChannelInfo :=
  { Chain_hash := [], Temporary_channel_id := [], funding_satoshis := 0, push_msat := 0,
    dust_limit_satoshis := 0, max_htlc_value_in_flight_msat := 0,
    channel_reserve_satoshis := 0, htlc_minimum_msat := 0, feerate_per_kw := 0,
    to_self_delay := 0, max_accepted_htlcs := 0, funding_pubkey := [],
    revocation_basepoint := [], payment_basepoint := [], delayed_payment_basepoint := [],
    htlc_basepoint := [] }

/-- The payload `bean.Close_channel` (type -38); its fields carry no tag, so
the JSON key of a field is its Go name. -/
structure Close_channel where
  channel_id : chainhash.Hash
  len : Nat
  scriptpubkey : List Nat
  signature : chainhash.Signauture
deriving DecidableEq, Repr

/-- The JSON object `json.Marshal` writes for a `Close_channel`. -/
def Close_channel.Marshal (v : Close_channel) : List (String × json.Value) :=
  json.encodeField "channel_id" "channel_id" (json.Value.Bytes v.channel_id) ++
  json.encodeField "len" "len" (json.Value.Number v.len) ++
  json.encodeField "scriptpubkey" "scriptpubkey" (json.Value.Bytes v.scriptpubkey) ++
  json.encodeField "signature" "signature" (json.Value.Bytes v.signature)

/-- The `Close_channel` that `json.Unmarshal(data, &dst)` leaves in `dst`. -/
def Close_channel.Unmarshal (data : List (String × json.Value)) (dst : Close_channel) :
    Close_channel :=
  { channel_id := json.decodeField data "channel_id" "channel_id" json.toBytes dst.channel_id
    len := json.decodeField data "len" "len" json.toUint dst.len
    scriptpubkey := json.decodeField data "scriptpubkey" "scriptpubkey" json.toBytes
      dst.scriptpubkey
    signature := json.decodeField data "signature" "signature" json.toBytes dst.signature }

/-- The Go zero value `Close_channel{}`. -/
def Close_channel.zero : Close_channel :=
  { channel_id := [], len := 0, scriptpubkey := [], signature := [] }

end bean

/-! ## A concrete JSON reader and chain node, for evaluating the service -/

namespace gjson

/-- A JSON document built from null, numbers, strings, arrays and objects.
Numbers, arrays and objects keep their raw text, as a `gjson.Result` does. -/
inductive Node where
  | null
  | number (raw : String) (num : ℚ)
  | string (str : String)
  | array (raw : String) (items : List Node)
  | object (raw : String) (members : List (String × Node))

/-- The call `r.Get(key)` for a literal key: the first member of an object with that
key; a result that does not exist is `null`. -/
def Node.Get (r : Node) (key : String) : Node :=
  match r with
  | Node.object _ members => (members.lookup key).getD Node.null
  | _ => Node.null

/-- The call `r.IsArray()`. -/
def Node.IsArray (r : Node) : Bool :=
  match r with
  | Node.array _ _ => true
  | _ => false

/-- The call `r.Array()`: the items of an array, nothing for null, and the value alone
otherwise. -/
def Node.Array (r : Node) : List Node :=
  match r with
  | Node.null => []
  | Node.array _ items => items
  | other => [other]

/-- The call `r.Float()`: the value of a number, a string read as a number (integer
literals only in this model), and `0` otherwise. -/
def Node.Float (r : Node) : ℚ :=
  match r with
  | Node.number _ num => num
  | Node.string str => ((str.toInt?.getD 0 : ℤ) : ℚ)
  | _ => 0

/-- The call `r.Int()`: a number truncated toward zero, a string read as an integer,
and `0` otherwise. -/
def Node.Int (r : Node) : Int :=
  match r with
  | Node.number _ num => Int.tdiv num.num num.den
  | Node.string str => str.toInt?.getD 0
  | _ => 0

/-- The call `r.String()`: the text of a string, the raw text of a number, an array or
an object, and the empty string for null. -/
def Node.String (r : Node) : String :=
  match r with
  | Node.null => ""
  | Node.number raw _ => raw
  | Node.string str => str
  | Node.array raw _ => raw
  | Node.object raw _ => raw

/-- The reader over `Node` whose `Parse` knows the listed documents (text and
parsed form); any other text is read as a result that does not exist. -/
def nodeLib (docs : List (String × Node)) : Lib Node ℚ :=
  { Parse := fun json => (docs.lookup json).getD Node.null
    Get := Node.Get
    IsArray := Node.IsArray
    Array := Node.Array
    Int := Node.Int
    Float := Node.Float
    String := Node.String }

end gjson

namespace rpc

/-- A chain node that answers each call from a table keyed by its
argument and fails with `"not found"` for any other argument; the state of the
outside world counts the calls. -/
def Client.ofTables (multiSig : List (List String × Except String String))
    (addressInfo transactions decoded : List (String × Except String String)) :
    Client Nat :=
  { CreateMultiSig := fun _ keys s =>
      ((multiSig.lookup keys).getD (Except.error "not found"), s + 1)
    GetAddressInfo := fun address s =>
      ((addressInfo.lookup address).getD (Except.error "not found"), s + 1)
    GetTransactionById := fun txid s =>
      ((transactions.lookup txid).getD (Except.error "not found"), s + 1)
    DecodeRawTransaction := fun hex s =>
      ((decoded.lookup hex).getD (Except.error "not found"), s + 1) }

end rpc

namespace Scenario

/-- A channel between `alice` (funder, side A) and `bob`. -/
def channel : dao.ChannelInfo :=
  { PeerIdA := "alice", PeerIdB := "bob", ChannelId := [7], AddressA := "addrA",
    AddressB := "addrB", ChannelAddress := "chanAddr" }

/-- The user `alice`. -/
def alice : bean.User := { Id := 1, PeerId := "alice", Email := "", Password := "", State := 0 }

/-- The user `bob`. -/
def bob : bean.User := { Id := 2, PeerId := "bob", Email := "", Password := "", State := 0 }

/-- An asset-transfer record sent by `addrA` to the channel address. -/
def omniRecord : gjson.Node :=
  gjson.Node.object "omniRecord"
    [("txid", gjson.Node.string "otx"), ("sendingaddress", gjson.Node.string "addrA"),
     ("referenceaddress", gjson.Node.string "chanAddr"),
     ("amount", gjson.Node.number "100" 100), ("propertyid", gjson.Node.number "31" 31)]

/-- The previous transaction `prev`: output 0 pays the address of the funder
`addrA`, output 1 pays the unrelated address `mallory`. -/
def prevDecoded : gjson.Node :=
  gjson.Node.object "prevDecoded"
    [("txid", gjson.Node.string "prev"),
     ("vout", gjson.Node.array "[out0,out1]"
       [gjson.Node.object "out0"
          [("value", gjson.Node.number "100" 100), ("n", gjson.Node.number "0" 0),
           ("scriptPubKey", gjson.Node.object "spk0"
             [("addresses", gjson.Node.array "[addrA]" [gjson.Node.string "addrA"])])],
        gjson.Node.object "out1"
          [("value", gjson.Node.number "5" 5), ("n", gjson.Node.number "1" 1),
           ("scriptPubKey", gjson.Node.object "spk1"
             [("addresses", gjson.Node.array "[mallory]" [gjson.Node.string "mallory"])])]])]

/-- The outputs of a funding transaction: output 0 pays 100 to the channel
address. -/
def fundingVout : gjson.Node :=
  gjson.Node.array "[fout0]"
    [gjson.Node.object "fout0"
       [("value", gjson.Node.number "100" 100), ("n", gjson.Node.number "0" 0),
        ("scriptPubKey", gjson.Node.object "fspk0"
          [("addresses", gjson.Node.array "[chanAddr]" [gjson.Node.string "chanAddr"])])]]

/-- A funding transaction `ftx` whose input spends output 0 of `prev` (the
output of the funder). -/
def fundingTx : gjson.Node :=
  gjson.Node.object "fundingTx"
    [("txid", gjson.Node.string "ftx"),
     ("vin", gjson.Node.array "[in0]"
       [gjson.Node.object "in0"
          [("txid", gjson.Node.string "prev"), ("vout", gjson.Node.number "0" 0)]]),
     ("vout", fundingVout)]

/-- A funding transaction `ftx2` whose input spends output 1 of `prev`, which
pays `mallory` and not the funder. -/
def fundingTxOther : gjson.Node :=
  gjson.Node.object "fundingTxOther"
    [("txid", gjson.Node.string "ftx2"),
     ("vin", gjson.Node.array "[in1]"
       [gjson.Node.object "in1"
          [("txid", gjson.Node.string "prev"), ("vout", gjson.Node.number "1" 1)]]),
     ("vout", fundingVout)]

/-- The documents the reader knows, each under a short text. -/
def docs : List (String × gjson.Node) :=
  [("omniRecord", omniRecord),
   ("fundingTx", fundingTx),
   ("fundingTxOther", fundingTxOther),
   ("prevTx", gjson.Node.object "prevTx" [("hex", gjson.Node.string "prevHex")]),
   ("prevDecoded", prevDecoded),
   ("multiSigRsmc", gjson.Node.object "multiSigRsmc"
      [("address", gjson.Node.string "rsmcAddr"),
       ("redeemScript", gjson.Node.string "rsmcScript")]),
   ("infoRsmc", gjson.Node.object "infoRsmc" [("scriptPubKey", gjson.Node.string "rsmcSpk")]),
   ("multiSigHtlc", gjson.Node.object "multiSigHtlc"
      [("address", gjson.Node.string "htlcAddr"),
       ("redeemScript", gjson.Node.string "htlcScript")]),
   ("infoHtlc", gjson.Node.object "infoHtlc" [("scriptPubKey", gjson.Node.string "htlcSpk")])]

/-- The collaborators of the scenario: the reader over `docs`, a chain node
that derives multisig addresses for the keys `rsmcKey` and `htlcKey`, rejects
`badKey`, and knows the transaction `prev`; the clock shows `1000` plus the
number of calls made so far. -/
def env : service.Env Nat gjson.Node ℚ :=
  { gj := gjson.nodeLib docs
    rpcClient := rpc.Client.ofTables
      [(["rsmcKey", "chanKey"], Except.ok "multiSigRsmc"),
       (["htlcKey", "chanKey"], Except.ok "multiSigHtlc"),
       (["badKey", "chanKey"], Except.error "invalid public key")]
      [("rsmcAddr", Except.ok "infoRsmc"), ("htlcAddr", Except.ok "infoHtlc")]
      [("prev", Except.ok "prevTx")]
      [("prevHex", Except.ok "prevDecoded")]
    Now := fun s => (1000 + (s : ℤ), s + 1) }

/-- The funding of the channel: 100 units of asset 31, all on side A. -/
def funding : dao.FundingTransaction ℚ :=
  { PropertyId := 31, FundingTxid := "ftx", FundingOutputIndex := 0, AmountA := 100,
    AmountB := 0 }

/-- The split of Scenario B: 60 to the owner's RSMC output, 40 to the other
side, no HTLC output. -/
def split : service.commitmentOutputBean ℚ :=
  { RsmcTempPubKey := "rsmcKey", AmountToRsmc := 60, ToChannelPubKey := "chanKey",
    ToChannelAddress := "chanAddr", AmountToOther := 40, HtlcTempPubKey := "",
    AmountToHtlc := 0 }

/-- A split of 60 and 50 on the 100-unit input: its sum, 110, exceeds the
input amount. -/
def splitOver : service.commitmentOutputBean ℚ :=
  { split with AmountToOther := 50 }

/-- The split of Scenario B with an HTLC output of 10 taken from the other
side. -/
def splitHtlc : service.commitmentOutputBean ℚ :=
  { split with AmountToOther := 30, HtlcTempPubKey := "htlcKey", AmountToHtlc := 10 }

/-- The split of Scenario B with an RSMC key the chain node rejects. -/
def splitBad : service.commitmentOutputBean ℚ :=
  { split with RsmcTempPubKey := "badKey" }

/-- A signed commitment of `alice` with 60 on her RSMC output. -/
def signed : dao.CommitmentTransaction ℚ :=
  { dao.CommitmentTransaction.zero with
    Id := 1, PeerIdA := "alice", PeerIdB := "bob", ChannelId := [7], PropertyId := 31,
    Owner := "alice", InputTxid := "ftx", InputAmount := 100, RSMCTxid := "rsmcTx",
    AmountToRSMC := 60, AmountToOther := 40,
    CurrState := dao.TxInfoState.TxInfoState_CreateAndSign, CreateAt := 10 }

/-- The commitment `signed` once revoked. -/
def revoked : dao.CommitmentTransaction ℚ :=
  { signed with CurrState := dao.TxInfoState.TxInfoState_Revoked }

/-- The JSON text (without the enclosing quotes) that Go writes for two
instants in UTC, given in nanoseconds since the epoch: RFC 3339 with the
fraction of the second cut after its last non-zero digit. -/
def timeJSON (t : Time) : String :=
  if t = 1546300801000000000 then "2019-01-01T00:00:01Z"
  else if t = 1546300801500000000 then "2019-01-01T00:00:01.5Z"
  else ""

/-- A signed commitment of `alice` created at 2019-01-01 00:00:01 UTC. -/
def commitOld : dao.CommitmentTransaction ℚ :=
  { signed with CreateAt := 1546300801000000000 }

/-- A signed commitment of `alice` on the same channel, created half a second
after `commitOld`. -/
def commitNew : dao.CommitmentTransaction ℚ :=
  { signed with Id := 2, AmountToRSMC := 55, AmountToOther := 45,
                CreateAt := 1546300801500000000 }

/-- A store with the two signed commitments of `alice`. -/
def store : List (dao.CommitmentTransaction ℚ) := [commitOld, commitNew]

/-- The `open_channel` payload of Scenario A: 100000 funding satoshis, no
push, a self delay of 144 and at most 30 accepted HTLCs. -/
def openChannel : bean.OpenChannelInfo :=
  { bean.OpenChannelInfo.zero with
    Chain_hash := [1], Temporary_channel_id := [2], funding_satoshis := 100000,
    to_self_delay := 144, max_accepted_htlcs := 30, funding_pubkey := [3] }

/-- A `close_channel` payload. -/
def closeChannel : bean.Close_channel :=
  { channel_id := [9], len := 2, scriptpubkey := [118, 169], signature := [4, 5] }

end Scenario

namespace strings

/-- The fields of a character sequence between the occurrences of the
character `sep`: one more field than there are occurrences. -/
def splitChars (sep : Char) : List Char → List (List Char)
  | [] => [[]]
  | c :: cs =>
    if c = sep then [] :: splitChars sep cs
    else
      match splitChars sep cs with
      | [] => [[c]]
      | field :: fields => (c :: field) :: fields

/-- The call `strings.Split(s, sep)` of the Go library for a separator of one
character: the substrings of `s` between the occurrences of `sep` (the empty
string gives one empty substring). -/
def Split (s : String) (sep : Char) : List String :=
  (splitChars sep s.data).map String.mk

end strings

namespace rpc

set_option linter.unusedVariables false

/-- The loop of `CheckMultiSign` over the inputs still to be checked.  `Str` is
the field `Str` of a gjson result.  The index expressions `asmArr[1]` and
`asmArr[2]` are evaluated only when `len(asmArr)` is 4 (the `||` of Go is
short-circuit), so they are always in range. -/
def CheckMultiSign.loop {R F : Type} (gj : gjson.Lib R F) (Str : R → String) (step : Int) :
    List R → Bool × Error
  | [] => (true, none)
  | vin :: rest =>
    let asm := Str (gj.Get (gj.Get vin "scriptSig") "asm")
    let asmArr := strings.Split asm ' '
    if step == 1 &&
        (asmArr.length != 4 || (asmArr.getD 1 "" == "0" && asmArr.getD 2 "" == "0")) then
      (false, some "err sign")
    else if step == 2 &&
        (asmArr.length != 4 || asmArr.getD 1 "" == "0" || asmArr.getD 2 "" == "0") then
      (false, some "err sign")
    else CheckMultiSign.loop gj Str step rest

/-- The method `Client.CheckMultiSign`: the Go result pair `(pass, err)`.
`DecodeBtcRawTransaction` is `omnicore.DecodeBtcRawTransaction`, declared
outside the given sources: it returns a Go pair `(result, err)`, of which the
method reads `result` and drops `err`. -/
def CheckMultiSign {R F : Type} (gj : gjson.Lib R F) (Str : R → String)
    (DecodeBtcRawTransaction : String → String × Error) (sendedInput : Bool) (hex : String)
    (step : Int) : Bool × Error :=
  if hex.length == 0 then (false, some "Empty hex")
  else
    let result := (DecodeBtcRawTransaction hex).1
    let vins := gj.Array (gj.Get (gj.Parse result) "vin")
    CheckMultiSign.loop gj Str step vins

end rpc

namespace gjson

/-- The field `r.Str` of a result: the text of a string, and the empty string
for any other value. -/
def nodeStr (r : Node) : String :=
  match r with
  | Node.string str => str
  | _ => ""

end gjson

namespace Scenario

/-- A funding transaction whose `vin` is the empty array. -/
def fundingTxNoInput : gjson.Node :=
  gjson.Node.object "fundingTxNoInput"
    [("txid", gjson.Node.string "ftx3"), ("vin", gjson.Node.array "[]" []),
     ("vout", fundingVout)]

/-- The collaborators `env`, with a reader that also knows
`fundingTxNoInput`. -/
def envNoInput : service.Env Nat gjson.Node ℚ :=
  { env with gj := gjson.nodeLib (("fundingTxNoInput", fundingTxNoInput) :: docs) }

/-- A decoded transaction with one input whose `scriptSig.asm` is `asm`. -/
def spendWith (label asm : String) : gjson.Node :=
  gjson.Node.object label
    [("txid", gjson.Node.string "ctx"),
     ("vin", gjson.Node.array "[in0]"
       [gjson.Node.object "in0"
          [("txid", gjson.Node.string "ftx"), ("vout", gjson.Node.number "0" 0),
           ("scriptSig", gjson.Node.object "sig0" [("asm", gjson.Node.string asm)])]])]

/-- The reader that knows three spends of the channel output: signed by
neither party, by one party, and by both. -/
def signLib : gjson.Lib gjson.Node ℚ :=
  gjson.nodeLib
    [("unsigned", spendWith "unsigned" "0 0 0 script"),
     ("halfSigned", spendWith "halfSigned" "0 sigA 0 script"),
     ("fullySigned", spendWith "fullySigned" "0 sigA sigB script")]

/-- A decoder that knows the raw transactions `hexUnsigned`, `hexHalf` and
`hexFull`, and returns an empty result with an error for any other text. -/
def decodeBtc (hex : String) : String × Error :=
  match [("hexUnsigned", "unsigned"), ("hexHalf", "halfSigned"),
      ("hexFull", "fullySigned")].lookup hex with
  | some result => (result, none)
  | none => ("", some "decode failed")

end Scenario

/-! ## Theorems -/

/-- C1: `checkOmniTxHex` succeeds exactly when the record's `sendingaddress`
is the funder's address (`AddressB` for `PeerIdB`, `AddressA` otherwise) and
its `referenceaddress` is the channel address; on success it returns the
record's `txid`, `amount` and `propertyid`; a sender mismatch returns
`("", 0, 0)` with `"wrong Tx input"`, checked first, and a reference mismatch
returns `("", 0, 0)` with the different error `"wrong Tx output"`. -/
theorem checkOmniTxHex_spec {R F : Type} [Zero F] (gj : gjson.Lib R F)
    (fundingTxHexDecode : String) (channelInfo : dao.ChannelInfo) (user : bean.User) :
    ((service.checkOmniTxHex gj fundingTxHexDecode channelInfo user).2.2.2 = none ↔
      (gj.String (gj.Get (gj.Parse fundingTxHexDecode) "sendingaddress") =
          (if user.PeerId = channelInfo.PeerIdB then channelInfo.AddressB
            else channelInfo.AddressA) ∧
        gj.String (gj.Get (gj.Parse fundingTxHexDecode) "referenceaddress") =
          channelInfo.ChannelAddress)) ∧
    ((service.checkOmniTxHex gj fundingTxHexDecode channelInfo user).2.2.2 = none →
      service.checkOmniTxHex gj fundingTxHexDecode channelInfo user =
        (gj.String (gj.Get (gj.Parse fundingTxHexDecode) "txid"),
         gj.Float (gj.Get (gj.Parse fundingTxHexDecode) "amount"),
         gj.Int (gj.Get (gj.Parse fundingTxHexDecode) "propertyid"), none)) ∧
    (gj.String (gj.Get (gj.Parse fundingTxHexDecode) "sendingaddress") ≠
        (if user.PeerId = channelInfo.PeerIdB then channelInfo.AddressB
          else channelInfo.AddressA) →
      service.checkOmniTxHex gj fundingTxHexDecode channelInfo user =
        ("", 0, 0, some "wrong Tx input")) ∧
    (gj.String (gj.Get (gj.Parse fundingTxHexDecode) "sendingaddress") =
        (if user.PeerId = channelInfo.PeerIdB then channelInfo.AddressB
          else channelInfo.AddressA) →
      gj.String (gj.Get (gj.Parse fundingTxHexDecode) "referenceaddress") ≠
        channelInfo.ChannelAddress →
      service.checkOmniTxHex gj fundingTxHexDecode channelInfo user =
        ("", 0, 0, some "wrong Tx output")) ∧
    (some "wrong Tx input" : Error) ≠ some "wrong Tx output" := by
  have hf : service.funderAddress channelInfo user.PeerId =
      (if user.PeerId = channelInfo.PeerIdB then channelInfo.AddressB
        else channelInfo.AddressA) := by
    simp [service.funderAddress]
  by_cases h1 : gj.String (gj.Get (gj.Parse fundingTxHexDecode) "sendingaddress") =
      (if user.PeerId = channelInfo.PeerIdB then channelInfo.AddressB
        else channelInfo.AddressA)
  · by_cases h2 : gj.String (gj.Get (gj.Parse fundingTxHexDecode) "referenceaddress") =
        channelInfo.ChannelAddress
    · refine ⟨?_, ?_, ?_, ?_, by decide⟩ <;>
        simp [service.checkOmniTxHex, hf, h1, h2]
    · refine ⟨?_, ?_, ?_, ?_, by decide⟩ <;>
        simp [service.checkOmniTxHex, hf, h1, h2]
  · refine ⟨?_, ?_, ?_, ?_, by decide⟩ <;>
      simp [service.checkOmniTxHex, hf, h1]

/-- C1 at the record `Scenario.omniRecord` funded by `alice`: the call returns
`("otx", 100, 31, nil)`. -/
theorem checkOmniTxHex_spec_witness :
    service.checkOmniTxHex Scenario.env.gj "omniRecord" Scenario.channel Scenario.alice =
      ("otx", 100, 31, none) :=
  (checkOmniTxHex_spec Scenario.env.gj "omniRecord" Scenario.channel Scenario.alice).2.1
    (by decide)

/-- The outcomes of `createCommitmentTx`: either no commitment and an error, or
a commitment and no error; a returned commitment has the input amount
`AmountA + AmountB` and the three amounts of the split. -/
theorem createCommitmentTx_outcome {σ R F : Type} [Zero F] [Add F]
    (env : service.Env σ R F) (owner : String) (channelInfo : dao.ChannelInfo)
    (fundingTransaction : dao.FundingTransaction F)
    (outputBean : service.commitmentOutputBean F) (user : bean.User) (s : σ) :
    (∃ e, (service.createCommitmentTx env owner channelInfo fundingTransaction outputBean
        user s).1 = (none, some e)) ∨
    (∃ c, (service.createCommitmentTx env owner channelInfo fundingTransaction outputBean
        user s).1 = (some c, none) ∧
      c.InputAmount = fundingTransaction.AmountA + fundingTransaction.AmountB ∧
      c.AmountToRSMC = outputBean.AmountToRsmc ∧
      c.AmountToOther = outputBean.AmountToOther ∧
      c.AmountToHtlc = outputBean.AmountToHtlc) := by
  rcases h1 : env.rpcClient.CreateMultiSig 2
    [outputBean.RsmcTempPubKey, outputBean.ToChannelPubKey] s with ⟨e | m, s1⟩
  · left
    exact ⟨e, by simp [service.createCommitmentTx, h1]⟩
  · rcases h2 : env.rpcClient.GetAddressInfo
      (env.gj.String (env.gj.Get (env.gj.Parse m) "address")) s1 with ⟨e | j, s2⟩
    · left
      exact ⟨e, by simp [service.createCommitmentTx, h1, h2]⟩
    · by_cases hc : tool.CheckIsString outputBean.HtlcTempPubKey = true
      · rcases h3 : env.rpcClient.CreateMultiSig 2
          [outputBean.HtlcTempPubKey, outputBean.ToChannelPubKey] s2 with ⟨e | mh, s3⟩
        · left
          exact ⟨e, by simp [service.createCommitmentTx, h1, h2, hc, h3]⟩
        · rcases h4 : env.rpcClient.GetAddressInfo
            (env.gj.String (env.gj.Get (env.gj.Parse mh) "address")) s3 with ⟨e | jh, s4⟩
          · left
            exact ⟨e, by simp [service.createCommitmentTx, h1, h2, hc, h3, h4]⟩
          · right
            simp [service.createCommitmentTx, service.createCommitmentTx.finish, h1, h2,
              hc, h3, h4]
      · right
        simp [service.createCommitmentTx, service.createCommitmentTx.finish, h1, h2, hc]

/-- The check `tool.CheckIsString` holds exactly for a non-empty string. -/
theorem CheckIsString_iff (str : String) : tool.CheckIsString str = true ↔ str ≠ "" := by
  cases str with
  | mk l =>
    cases l with
    | nil => simp [tool.CheckIsString]
    | cons a t =>
      simp [tool.CheckIsString, String.length]
      intro h
      have h2 := congrArg String.data h
      simp at h2

/-- C3: evaluation of `checkBtcTxHex` at the funding transaction
`Scenario.fundingTxOther`.  Its only input spends output 1 of `prev`, which
pays `mallory`; the funder's address is `addrA`, which only output 0 of `prev`
pays.  The call accepts the transaction: it returns `("ftx2", 100, 0, nil)`. -/
theorem checkBtcTxHex_accepts_foreign_input :
    service.checkBtcTxHex Scenario.env "fundingTxOther" Scenario.channel "alice" 0 =
      some (("ftx2", 100, 0, none), 2) ∧
    service.funderAddress Scenario.channel "alice" = "addrA" ∧
    (Scenario.fundingTxOther.Get "vin").Array.map
      (fun i => ((i.Get "txid").String, (i.Get "vout").Int)) = [("prev", 1)] ∧
    (Scenario.prevDecoded.Get "vout").Array.map
      (fun o => ((o.Get "n").Int,
        ((o.Get "scriptPubKey").Get "addresses").Array.map gjson.Node.String)) =
      [(0, ["addrA"]), (1, ["mallory"])] := by
  decide

/-- C4, as stated, fails: on the 100-unit funding, the split of 60 and 50
yields a commitment whose amounts sum to 110 while its input amount is 100, so
the sum exceeds the input amount. -/
theorem createCommitmentTx_over_split :
    ∃ c : dao.CommitmentTransaction ℚ,
      (service.createCommitmentTx Scenario.env "alice" Scenario.channel Scenario.funding
        Scenario.splitOver Scenario.alice 0).1 = (some c, none) ∧
      c.AmountToRSMC + c.AmountToOther + c.AmountToHtlc = 110 ∧
      c.InputAmount = 100 ∧
      ¬ (c.AmountToRSMC + c.AmountToOther + c.AmountToHtlc ≤ c.InputAmount) := by
  refine ⟨_, rfl, ?_, ?_, ?_⟩ <;>
    norm_num [Scenario.splitOver, Scenario.split, Scenario.funding]

/-- C4, amended: a commitment returned by `createCommitmentTx` has the input
amount `AmountA + AmountB` and the three amounts of the split unchanged, so the
sum of its amounts is at most its input amount exactly when the sum of the
split is at most `AmountA + AmountB`. -/
theorem createCommitmentTx_amounts {σ R F : Type} [Zero F] [Add F] [LE F]
    (env : service.Env σ R F) (owner : String) (channelInfo : dao.ChannelInfo)
    (fundingTransaction : dao.FundingTransaction F)
    (outputBean : service.commitmentOutputBean F) (user : bean.User) (s : σ)
    (c : dao.CommitmentTransaction F)
    (h : (service.createCommitmentTx env owner channelInfo fundingTransaction outputBean
      user s).1.1 = some c) :
    c.InputAmount = fundingTransaction.AmountA + fundingTransaction.AmountB ∧
    c.AmountToRSMC = outputBean.AmountToRsmc ∧
    c.AmountToOther = outputBean.AmountToOther ∧
    c.AmountToHtlc = outputBean.AmountToHtlc ∧
    (c.AmountToRSMC + c.AmountToOther + c.AmountToHtlc ≤ c.InputAmount ↔
      outputBean.AmountToRsmc + outputBean.AmountToOther + outputBean.AmountToHtlc ≤
        fundingTransaction.AmountA + fundingTransaction.AmountB) := by
  have key : c.InputAmount = fundingTransaction.AmountA + fundingTransaction.AmountB ∧
      c.AmountToRSMC = outputBean.AmountToRsmc ∧
      c.AmountToOther = outputBean.AmountToOther ∧
      c.AmountToHtlc = outputBean.AmountToHtlc := by
    rcases createCommitmentTx_outcome env owner channelInfo fundingTransaction outputBean
      user s with ⟨e, he⟩ | ⟨c2, hc2, hrest⟩
    · rw [he] at h
      cases h
    · rw [hc2] at h
      cases h
      exact hrest
  obtain ⟨h1, h2, h3, h4⟩ := key
  refine ⟨h1, h2, h3, h4, ?_⟩
  rw [h1, h2, h3, h4]

/-- C4, amended, at the split of Scenario B (60 and 40 on the 100-unit
input). -/
theorem createCommitmentTx_amounts_witness :
    ∃ c : dao.CommitmentTransaction ℚ,
      (service.createCommitmentTx Scenario.env "alice" Scenario.channel Scenario.funding
        Scenario.split Scenario.alice 0).1.1 = some c ∧
      c.InputAmount = (100 : ℚ) + 0 ∧ c.AmountToRSMC = 60 ∧ c.AmountToOther = 40 ∧
      c.AmountToHtlc = 0 :=
  ⟨_, rfl,
    (createCommitmentTx_amounts Scenario.env "alice" Scenario.channel Scenario.funding
      Scenario.split Scenario.alice 0 _ rfl).1,
    (createCommitmentTx_amounts Scenario.env "alice" Scenario.channel Scenario.funding
      Scenario.split Scenario.alice 0 _ rfl).2.1,
    (createCommitmentTx_amounts Scenario.env "alice" Scenario.channel Scenario.funding
      Scenario.split Scenario.alice 0 _ rfl).2.2.1,
    (createCommitmentTx_amounts Scenario.env "alice" Scenario.channel Scenario.funding
      Scenario.split Scenario.alice 0 _ rfl).2.2.2.1⟩

/-- C5: when the chain node derives the RSMC multisig address from
`[RsmcTempPubKey, ToChannelPubKey]` and resolves its address info,
`createCommitmentTx` returns a commitment with the peers and channel id of the
channel, the property id and input reference of the funding transaction, the
given owner, `InputAmount = AmountA + AmountB`, the three amounts of the split
and the RSMC address, redeem script and script-pubkey read from the node's
answers.  With an empty `HtlcTempPubKey` the four HTLC fields stay empty; with
a non-empty one they are the key and the address, redeem script and
script-pubkey derived the same way from `[HtlcTempPubKey, ToChannelPubKey]`. -/
theorem createCommitmentTx_post {σ R F : Type} [Zero F] [Add F]
    (env : service.Env σ R F) (owner : String) (channelInfo : dao.ChannelInfo)
    (fundingTransaction : dao.FundingTransaction F)
    (outputBean : service.commitmentOutputBean F) (user : bean.User) (s s1 s2 : σ)
    (multiAddr json : String)
    (hMulti : env.rpcClient.CreateMultiSig 2
      [outputBean.RsmcTempPubKey, outputBean.ToChannelPubKey] s = (Except.ok multiAddr, s1))
    (hInfo : env.rpcClient.GetAddressInfo
      (env.gj.String (env.gj.Get (env.gj.Parse multiAddr) "address")) s1 =
        (Except.ok json, s2)) :
    (outputBean.HtlcTempPubKey = "" →
      (service.createCommitmentTx env owner channelInfo fundingTransaction outputBean
        user s).1 =
        (some
          { Id := 0
            PeerIdA := channelInfo.PeerIdA
            PeerIdB := channelInfo.PeerIdB
            ChannelId := channelInfo.ChannelId
            PropertyId := fundingTransaction.PropertyId
            Owner := owner
            InputTxid := fundingTransaction.FundingTxid
            InputVout := fundingTransaction.FundingOutputIndex
            InputAmount := fundingTransaction.AmountA + fundingTransaction.AmountB
            RSMCTempAddressPubKey := outputBean.RsmcTempPubKey
            RSMCMultiAddress := env.gj.String (env.gj.Get (env.gj.Parse multiAddr) "address")
            RSMCRedeemScript :=
              env.gj.String (env.gj.Get (env.gj.Parse multiAddr) "redeemScript")
            RSMCMultiAddressScriptPubKey :=
              env.gj.String (env.gj.Get (env.gj.Parse json) "scriptPubKey")
            RSMCTxid := ""
            HTLCTempAddressPubKey := ""
            HTLCMultiAddress := ""
            HTLCRedeemScript := ""
            HTLCMultiAddressScriptPubKey := ""
            AmountToRSMC := outputBean.AmountToRsmc
            AmountToOther := outputBean.AmountToOther
            AmountToHtlc := outputBean.AmountToHtlc
            CurrState := dao.TxInfoState.TxInfoState_Create
            CreateBy := user.PeerId
            CreateAt := (env.Now s2).1
            LastEditTime := (env.Now (env.Now s2).2).1 }, none)) ∧
    (outputBean.HtlcTempPubKey ≠ "" →
      ∀ (s3 s4 : σ) (multiAddrHtlc jsonHtlc : String),
        env.rpcClient.CreateMultiSig 2
          [outputBean.HtlcTempPubKey, outputBean.ToChannelPubKey] s2 =
            (Except.ok multiAddrHtlc, s3) →
        env.rpcClient.GetAddressInfo
          (env.gj.String (env.gj.Get (env.gj.Parse multiAddrHtlc) "address")) s3 =
            (Except.ok jsonHtlc, s4) →
        (service.createCommitmentTx env owner channelInfo fundingTransaction outputBean
          user s).1 =
          (some
            { Id := 0
              PeerIdA := channelInfo.PeerIdA
              PeerIdB := channelInfo.PeerIdB
              ChannelId := channelInfo.ChannelId
              PropertyId := fundingTransaction.PropertyId
              Owner := owner
              InputTxid := fundingTransaction.FundingTxid
              InputVout := fundingTransaction.FundingOutputIndex
              InputAmount := fundingTransaction.AmountA + fundingTransaction.AmountB
              RSMCTempAddressPubKey := outputBean.RsmcTempPubKey
              RSMCMultiAddress :=
                env.gj.String (env.gj.Get (env.gj.Parse multiAddr) "address")
              RSMCRedeemScript :=
                env.gj.String (env.gj.Get (env.gj.Parse multiAddr) "redeemScript")
              RSMCMultiAddressScriptPubKey :=
                env.gj.String (env.gj.Get (env.gj.Parse json) "scriptPubKey")
              RSMCTxid := ""
              HTLCTempAddressPubKey := outputBean.HtlcTempPubKey
              HTLCMultiAddress :=
                env.gj.String (env.gj.Get (env.gj.Parse multiAddrHtlc) "address")
              HTLCRedeemScript :=
                env.gj.String (env.gj.Get (env.gj.Parse multiAddrHtlc) "redeemScript")
              HTLCMultiAddressScriptPubKey :=
                env.gj.String (env.gj.Get (env.gj.Parse jsonHtlc) "scriptPubKey")
              AmountToRSMC := outputBean.AmountToRsmc
              AmountToOther := outputBean.AmountToOther
              AmountToHtlc := outputBean.AmountToHtlc
              CurrState := dao.TxInfoState.TxInfoState_Create
              CreateBy := user.PeerId
              CreateAt := (env.Now s4).1
              LastEditTime := (env.Now (env.Now s4).2).1 }, none)) := by
  refine ⟨?_, ?_⟩
  · intro hEmpty
    have hc : tool.CheckIsString outputBean.HtlcTempPubKey = false := by
      rw [← Bool.not_eq_true, CheckIsString_iff]
      simp [hEmpty]
    simp [service.createCommitmentTx, service.createCommitmentTx.finish, hMulti, hInfo, hc,
      dao.CommitmentTransaction.zero]
  · intro hNonEmpty s3 s4 multiAddrHtlc jsonHtlc hMultiHtlc hInfoHtlc
    have hc : tool.CheckIsString outputBean.HtlcTempPubKey = true :=
      (CheckIsString_iff _).2 hNonEmpty
    simp [service.createCommitmentTx, service.createCommitmentTx.finish, hMulti, hInfo, hc,
      hMultiHtlc, hInfoHtlc, dao.CommitmentTransaction.zero]

/-- C5 at the split `Scenario.splitHtlc` (60 / 30 / 10 with the HTLC key
`htlcKey`): the commitment carries both multisig outputs. -/
theorem createCommitmentTx_post_witness :
    (service.createCommitmentTx Scenario.env "alice" Scenario.channel Scenario.funding
      Scenario.splitHtlc Scenario.alice 0).1 =
      (some
        { Id := 0, PeerIdA := "alice", PeerIdB := "bob", ChannelId := [7], PropertyId := 31,
          Owner := "alice", InputTxid := "ftx", InputVout := 0, InputAmount := 100 + 0,
          RSMCTempAddressPubKey := "rsmcKey", RSMCMultiAddress := "rsmcAddr",
          RSMCRedeemScript := "rsmcScript", RSMCMultiAddressScriptPubKey := "rsmcSpk",
          RSMCTxid := "", HTLCTempAddressPubKey := "htlcKey", HTLCMultiAddress := "htlcAddr",
          HTLCRedeemScript := "htlcScript", HTLCMultiAddressScriptPubKey := "htlcSpk",
          AmountToRSMC := 60, AmountToOther := 30, AmountToHtlc := 10,
          CurrState := dao.TxInfoState.TxInfoState_Create, CreateBy := "alice",
          CreateAt := 1004, LastEditTime := 1005 }, none) :=
  (createCommitmentTx_post Scenario.env "alice" Scenario.channel Scenario.funding
    Scenario.splitHtlc Scenario.alice 0 1 2 "multiSigRsmc" "infoRsmc" rfl rfl).2
    (by decide) 3 4 "multiSigHtlc" "infoHtlc" rfl rfl

/-- C6: `createCommitmentTx` returns either a commitment and no error or no
commitment and an error, never both and never neither; when a chain-node call
fails (deriving the RSMC multisig address, resolving its address info,
deriving the HTLC multisig address, resolving its address info) the result is
no commitment together with that call's error. -/
theorem createCommitmentTx_atomic {σ R F : Type} [Zero F] [Add F]
    (env : service.Env σ R F) (owner : String) (channelInfo : dao.ChannelInfo)
    (fundingTransaction : dao.FundingTransaction F)
    (outputBean : service.commitmentOutputBean F) (user : bean.User) (s : σ) :
    ((∃ c, (service.createCommitmentTx env owner channelInfo fundingTransaction outputBean
        user s).1 = (some c, none)) ∨
      (∃ e, (service.createCommitmentTx env owner channelInfo fundingTransaction outputBean
        user s).1 = (none, some e))) ∧
    (∀ (e : String) (s1 : σ),
      env.rpcClient.CreateMultiSig 2
        [outputBean.RsmcTempPubKey, outputBean.ToChannelPubKey] s = (Except.error e, s1) →
      service.createCommitmentTx env owner channelInfo fundingTransaction outputBean user s =
        ((none, some e), s1)) ∧
    (∀ (multiAddr e : String) (s1 s2 : σ),
      env.rpcClient.CreateMultiSig 2
        [outputBean.RsmcTempPubKey, outputBean.ToChannelPubKey] s =
          (Except.ok multiAddr, s1) →
      env.rpcClient.GetAddressInfo
        (env.gj.String (env.gj.Get (env.gj.Parse multiAddr) "address")) s1 =
          (Except.error e, s2) →
      service.createCommitmentTx env owner channelInfo fundingTransaction outputBean user s =
        ((none, some e), s2)) ∧
    (∀ (multiAddr json e : String) (s1 s2 s3 : σ),
      env.rpcClient.CreateMultiSig 2
        [outputBean.RsmcTempPubKey, outputBean.ToChannelPubKey] s =
          (Except.ok multiAddr, s1) →
      env.rpcClient.GetAddressInfo
        (env.gj.String (env.gj.Get (env.gj.Parse multiAddr) "address")) s1 =
          (Except.ok json, s2) →
      outputBean.HtlcTempPubKey ≠ "" →
      env.rpcClient.CreateMultiSig 2
        [outputBean.HtlcTempPubKey, outputBean.ToChannelPubKey] s2 = (Except.error e, s3) →
      service.createCommitmentTx env owner channelInfo fundingTransaction outputBean user s =
        ((none, some e), s3)) ∧
    (∀ (multiAddr json multiAddrHtlc e : String) (s1 s2 s3 s4 : σ),
      env.rpcClient.CreateMultiSig 2
        [outputBean.RsmcTempPubKey, outputBean.ToChannelPubKey] s =
          (Except.ok multiAddr, s1) →
      env.rpcClient.GetAddressInfo
        (env.gj.String (env.gj.Get (env.gj.Parse multiAddr) "address")) s1 =
          (Except.ok json, s2) →
      outputBean.HtlcTempPubKey ≠ "" →
      env.rpcClient.CreateMultiSig 2
        [outputBean.HtlcTempPubKey, outputBean.ToChannelPubKey] s2 =
          (Except.ok multiAddrHtlc, s3) →
      env.rpcClient.GetAddressInfo
        (env.gj.String (env.gj.Get (env.gj.Parse multiAddrHtlc) "address")) s3 =
          (Except.error e, s4) →
      service.createCommitmentTx env owner channelInfo fundingTransaction outputBean user s =
        ((none, some e), s4)) := by
  refine ⟨?_, ?_, ?_, ?_, ?_⟩
  · rcases createCommitmentTx_outcome env owner channelInfo fundingTransaction outputBean
      user s with ⟨e, he⟩ | ⟨c, hc, _⟩
    · exact Or.inr ⟨e, he⟩
    · exact Or.inl ⟨c, hc⟩
  · intro e s1 h1
    simp [service.createCommitmentTx, h1]
  · intro multiAddr e s1 s2 h1 h2
    simp [service.createCommitmentTx, h1, h2]
  · intro multiAddr json e s1 s2 s3 h1 h2 hne h3
    have hc : tool.CheckIsString outputBean.HtlcTempPubKey = true :=
      (CheckIsString_iff _).2 hne
    simp [service.createCommitmentTx, h1, h2, hc, h3]
  · intro multiAddr json multiAddrHtlc e s1 s2 s3 s4 h1 h2 hne h3 h4
    have hc : tool.CheckIsString outputBean.HtlcTempPubKey = true :=
      (CheckIsString_iff _).2 hne
    simp [service.createCommitmentTx, h1, h2, hc, h3, h4]

/-- C6 at the split `Scenario.splitBad`, whose RSMC key the chain node
rejects: no commitment, and the node's error. -/
theorem createCommitmentTx_atomic_witness :
    service.createCommitmentTx Scenario.env "alice" Scenario.channel Scenario.funding
      Scenario.splitBad Scenario.alice 0 = ((none, some "invalid public key"), 1) :=
  (createCommitmentTx_atomic Scenario.env "alice" Scenario.channel Scenario.funding
    Scenario.splitBad Scenario.alice 0).2.1 "invalid public key" 1 rfl

/-- C7: for every commitment, `createRDTx` and `createBRTx` succeed with
transactions that reference the same RSMC output (`InputTxid` the commitment's
`RSMCTxid`, `InputVout = 0`) and have `InputAmount = Amount = AmountToRSMC`;
both carry the commitment's id and property id, the channel's id and peers and
the given owner, and the Revocable-Delivery transaction carries
`Sequence = 1000` and the given output address. -/
theorem createRDTx_createBRTx_spec {σ R F : Type} (env : service.Env σ R F)
    (ownerRD ownerBR : String) (channelInfo : dao.ChannelInfo)
    (commitmentTxInfo : dao.CommitmentTransaction F) (toAddress : String)
    (userRD userBR : bean.User) (sRD sBR : σ) :
    ∃ (rd : dao.RevocableDeliveryTransaction F) (br : dao.BreachRemedyTransaction F),
      (service.createRDTx env ownerRD channelInfo commitmentTxInfo toAddress userRD sRD).1 =
        (some rd, none) ∧
      (service.createBRTx env ownerBR channelInfo commitmentTxInfo userBR sBR).1 =
        (some br, none) ∧
      rd.InputTxid = commitmentTxInfo.RSMCTxid ∧ br.InputTxid = commitmentTxInfo.RSMCTxid ∧
      rd.InputVout = 0 ∧ br.InputVout = 0 ∧
      rd.InputAmount = commitmentTxInfo.AmountToRSMC ∧
      rd.Amount = commitmentTxInfo.AmountToRSMC ∧
      br.InputAmount = commitmentTxInfo.AmountToRSMC ∧
      br.Amount = commitmentTxInfo.AmountToRSMC ∧
      rd.CommitmentTxId = commitmentTxInfo.Id ∧ br.CommitmentTxId = commitmentTxInfo.Id ∧
      rd.PropertyId = commitmentTxInfo.PropertyId ∧
      br.PropertyId = commitmentTxInfo.PropertyId ∧
      rd.ChannelId = channelInfo.ChannelId ∧ br.ChannelId = channelInfo.ChannelId ∧
      rd.PeerIdA = channelInfo.PeerIdA ∧ br.PeerIdA = channelInfo.PeerIdA ∧
      rd.PeerIdB = channelInfo.PeerIdB ∧ br.PeerIdB = channelInfo.PeerIdB ∧
      rd.Owner = ownerRD ∧ br.Owner = ownerBR ∧
      rd.Sequence = 1000 ∧ rd.OutputAddress = toAddress :=
  ⟨_, _, rfl, rfl, rfl, rfl, rfl, rfl, rfl, rfl, rfl, rfl, rfl, rfl, rfl, rfl, rfl, rfl, rfl,
    rfl, rfl, rfl, rfl, rfl, rfl, rfl⟩

/-- C8, as stated, fails: `createBRTx` succeeds on the commitment
`Scenario.signed`, which is not revoked, and `createRDTx` succeeds on the
revoked commitment `Scenario.revoked`, on which `createBRTx` succeeds too. -/
theorem createBRTx_createRDTx_not_gated :
    Scenario.signed.CurrState ≠ dao.TxInfoState.TxInfoState_Revoked ∧
    (service.createBRTx Scenario.env "bob" Scenario.channel Scenario.signed Scenario.bob
      0).1.2 = none ∧
    Scenario.revoked.CurrState = dao.TxInfoState.TxInfoState_Revoked ∧
    (service.createRDTx Scenario.env "alice" Scenario.channel Scenario.revoked "addrA"
      Scenario.alice 0).1.2 = none ∧
    (service.createBRTx Scenario.env "bob" Scenario.channel Scenario.revoked Scenario.bob
      0).1.2 = none := by
  decide

/-- C8, amended: `createRDTx` and `createBRTx` do not read the commitment's
state: for every commitment and every state, each returns a transaction and a
nil error, the same as for the commitment in any other state. -/
theorem createRDTx_createBRTx_total {σ R F : Type} (env : service.Env σ R F)
    (owner : String) (channelInfo : dao.ChannelInfo)
    (commitmentTxInfo : dao.CommitmentTransaction F) (toAddress : String)
    (user : bean.User) (s : σ) (state : dao.TxInfoState) :
    (∃ rd, (service.createRDTx env owner channelInfo commitmentTxInfo toAddress user s).1 =
      (some rd, none)) ∧
    (∃ br, (service.createBRTx env owner channelInfo commitmentTxInfo user s).1 =
      (some br, none)) ∧
    service.createRDTx env owner channelInfo { commitmentTxInfo with CurrState := state }
        toAddress user s =
      service.createRDTx env owner channelInfo commitmentTxInfo toAddress user s ∧
    service.createBRTx env owner channelInfo { commitmentTxInfo with CurrState := state }
        user s =
      service.createBRTx env owner channelInfo commitmentTxInfo user s :=
  ⟨⟨_, rfl⟩, ⟨_, rfl⟩, rfl, rfl⟩

/-- The byte order `bytes.le` is total. -/
theorem bytes_le_total : ∀ a b : List Nat, bytes.le a b = true ∨ bytes.le b a = true
  | [], _ => Or.inl (by simp [bytes.le])
  | _ :: _, [] => Or.inr (by simp [bytes.le])
  | x :: xs, y :: ys => by
    simp only [bytes.le]
    rcases Nat.lt_trichotomy x y with h | h | h
    · left
      simp [h]
    · subst h
      simpa using bytes_le_total xs ys
    · right
      simp [h]

/-- The byte order `bytes.le` is transitive. -/
theorem bytes_le_trans : ∀ a b c : List Nat,
    bytes.le a b = true → bytes.le b c = true → bytes.le a c = true
  | [], _, _ => by simp [bytes.le]
  | _ :: _, [], _ => by simp [bytes.le]
  | _ :: _, _ :: _, [] => by simp [bytes.le]
  | x :: xs, y :: ys, z :: zs => by
    simp only [bytes.le]
    intro h1 h2
    by_cases hxy : x < y
    · by_cases hyz : y < z
      · have : x < z := by omega
        simp [this]
      · by_cases hzy : z < y
        · simp [hyz, hzy] at h2
        · have hEq : y = z := by omega
          subst hEq
          simp [hxy]
    · by_cases hyx : y < x
      · simp [hxy, hyx] at h1
      · have hEq : x = y := by omega
        subst hEq
        simp only [hxy, if_false] at h1
        by_cases hxz : x < z
        · simp [hxz]
        · by_cases hzx : z < x
          · simp [hxz, hzx] at h2
          · simp only [hxz, hzx, if_false] at h2 ⊢
            exact bytes_le_trans xs ys zs h1 h2

/-- The query `Select(matchers).OrderBy(field).Reverse().First(dst)` succeeds
exactly when some record is accepted by every matcher, and then yields such a
record of the store whose encoded ordering field is greatest in byte order
among them; otherwise it leaves `dst`. -/
theorem storm_first_selects {α : Type} (records : List α) (matchers : List (α → Bool))
    (field : α → List Nat) (dst : α) :
    (((((storm.Select records matchers).OrderBy field).Reverse).First dst).2 = none ↔
      ∃ a ∈ records, ∀ m ∈ matchers, m a = true) ∧
    (((((storm.Select records matchers).OrderBy field).Reverse).First dst).2 = none →
      ((((storm.Select records matchers).OrderBy field).Reverse).First dst).1 ∈ records ∧
      (∀ m ∈ matchers,
        m ((((storm.Select records matchers).OrderBy field).Reverse).First dst).1 = true) ∧
      ∀ d ∈ records, (∀ m ∈ matchers, m d = true) →
        bytes.le (field d)
          (field ((((storm.Select records matchers).OrderBy field).Reverse).First dst).1) =
            true) ∧
    (((((storm.Select records matchers).OrderBy field).Reverse).First dst).2 ≠ none →
      ((((storm.Select records matchers).OrderBy field).Reverse).First dst).1 = dst) := by
  haveI : IsTotal α (fun a b => bytes.le (field a) (field b) = true) :=
    ⟨fun a b => bytes_le_total _ _⟩
  haveI : IsTrans α (fun a b => bytes.le (field a) (field b) = true) :=
    ⟨fun a b c h1 h2 => bytes_le_trans _ _ _ h1 h2⟩
  have hrun : (((storm.Select records matchers).OrderBy field).Reverse).run =
      ((records.filter (fun a => matchers.all (fun m => m a))).insertionSort
        (fun a b => bytes.le (field a) (field b) = true)).reverse := by
    simp [storm.Query.run, storm.Select, storm.Query.OrderBy, storm.Query.Reverse]
  have hmem : ∀ x, x ∈ (((storm.Select records matchers).OrderBy field).Reverse).run ↔
      x ∈ records ∧ ∀ m ∈ matchers, m x = true := by
    intro x
    rw [hrun, List.mem_reverse, List.mem_insertionSort, List.mem_filter]
    simp [List.all_eq_true]
  have hsorted : List.Pairwise (fun a b => bytes.le (field b) (field a) = true)
      (((storm.Select records matchers).OrderBy field).Reverse).run := by
    rw [hrun, List.pairwise_reverse]
    exact List.sorted_insertionSort (fun a b => bytes.le (field a) (field b) = true) _
  unfold storm.Query.First
  cases hq : (((storm.Select records matchers).OrderBy field).Reverse).run with
  | nil =>
    refine ⟨?_, ?_, ?_⟩
    · simp only [List.head?_nil, reduceCtorEq, false_iff]
      rintro ⟨a, ha, hm⟩
      have := (hmem a).2 ⟨ha, hm⟩
      rw [hq] at this
      cases this
    · simp
    · simp
  | cons a t =>
    have ha : a ∈ records ∧ ∀ m ∈ matchers, m a = true :=
      (hmem a).1 (by rw [hq]; exact List.mem_cons_self _ _)
    rw [hq] at hsorted
    refine ⟨?_, ?_, ?_⟩
    · simp only [List.head?_cons, true_iff]
      exact ⟨a, ha.1, ha.2⟩
    · intro _
      refine ⟨ha.1, ha.2, ?_⟩
      intro d hd hdm
      have hdrun := (hmem d).2 ⟨hd, hdm⟩
      rw [hq] at hdrun
      rcases List.mem_cons.1 hdrun with rfl | hdt
      · rcases bytes_le_total (field d) (field d) with h | h <;> exact h
      · exact List.rel_of_pairwise_cons hsorted hdt
    · simp

/-- The call `getLatestCommitmentTx(channelId, owner)` succeeds exactly when
some stored commitment has that channel id, that owner and the state
`TxInfoState_CreateAndSign`; on success the returned commitment is a stored
one with that channel id, owner and state, and the encoded text of its
`CreateAt` is greatest in byte order among the stored commitments with these
three properties; otherwise it returns an error with the zero record. -/
theorem getLatestCommitmentTx_selects {F : Type} [Zero F] (codec : Time → String)
    (db : List (dao.CommitmentTransaction F)) (channelId : bean.ChannelID)
    (owner : String) :
    ((service.getLatestCommitmentTx codec db channelId owner).2 = none ↔
      ∃ c ∈ db, c.ChannelId = channelId ∧ c.Owner = owner ∧
        c.CurrState = dao.TxInfoState.TxInfoState_CreateAndSign) ∧
    ((service.getLatestCommitmentTx codec db channelId owner).2 = none →
      (service.getLatestCommitmentTx codec db channelId owner).1 ∈ db ∧
      (service.getLatestCommitmentTx codec db channelId owner).1.ChannelId = channelId ∧
      (service.getLatestCommitmentTx codec db channelId owner).1.Owner = owner ∧
      (service.getLatestCommitmentTx codec db channelId owner).1.CurrState =
        dao.TxInfoState.TxInfoState_CreateAndSign ∧
      ∀ d ∈ db, d.ChannelId = channelId → d.Owner = owner →
        d.CurrState = dao.TxInfoState.TxInfoState_CreateAndSign →
        bytes.le (bytes.ofText (codec d.CreateAt))
          (bytes.ofText
            (codec (service.getLatestCommitmentTx codec db channelId owner).1.CreateAt)) =
          true) ∧
    ((service.getLatestCommitmentTx codec db channelId owner).2 ≠ none →
      (service.getLatestCommitmentTx codec db channelId owner).1 =
        dao.CommitmentTransaction.zero) := by
  have h := storm_first_selects db
    [fun c : dao.CommitmentTransaction F => c.ChannelId == channelId,
     fun c => c.Owner == owner,
     fun c => c.CurrState == dao.TxInfoState.TxInfoState_CreateAndSign]
    (fun c => bytes.ofText (codec c.CreateAt)) dao.CommitmentTransaction.zero
  simp only [List.mem_cons, List.mem_singleton, forall_eq_or_imp, forall_eq, beq_iff_eq,
    List.not_mem_nil, false_imp_iff, implies_true, and_true, or_false] at h
  obtain ⟨h1, h2, h3⟩ := h
  refine ⟨h1, ?_, h3⟩
  intro hok
  obtain ⟨hm, ⟨hc, ho, hs⟩, hmax⟩ := h2 hok
  exact ⟨hm, hc, ho, hs, fun d hd hdc hdo hds => hmax d hd ⟨hdc, hdo, hds⟩⟩

/-- C9: evaluation of `getLatestCommitmentTx` at the store `Scenario.store`.
Both stored commitments have the channel id `[7]`, the owner `alice` and the
state `TxInfoState_CreateAndSign`; `commitNew` was created half a second after
`commitOld`.  The text of the earlier instant, `2019-01-01T00:00:01Z`, follows
the text of the later one, `2019-01-01T00:00:01.5Z`, in byte order, and the
call returns the earlier commitment `commitOld`, in either storage order. -/
theorem getLatestCommitmentTx_returns_older :
    Scenario.commitOld.CreateAt < Scenario.commitNew.CreateAt ∧
    (∀ c ∈ Scenario.store, c.ChannelId = [7] ∧ c.Owner = "alice" ∧
      c.CurrState = dao.TxInfoState.TxInfoState_CreateAndSign) ∧
    bytes.le (bytes.ofText (Scenario.timeJSON Scenario.commitNew.CreateAt))
      (bytes.ofText (Scenario.timeJSON Scenario.commitOld.CreateAt)) = true ∧
    service.getLatestCommitmentTx Scenario.timeJSON Scenario.store [7] "alice" =
      (Scenario.commitOld, none) ∧
    service.getLatestCommitmentTx Scenario.timeJSON Scenario.store.reverse [7] "alice" =
      (Scenario.commitOld, none) := by
  decide

/-- The envelope `Message` survives the round trip through JSON: all its
fields are exported. -/
theorem Message_roundtrip (v : bean.Message) :
    bean.Message.Unmarshal (bean.Message.Marshal v) bean.Message.zero = v := by
  cases v
  rfl

/-- Decoding the JSON encoding of any `Close_channel` yields the zero value:
no field of the struct is exported. -/
theorem Close_channel_roundtrip_zero (v : bean.Close_channel) :
    bean.Close_channel.Marshal v = [] ∧
    bean.Close_channel.Unmarshal (bean.Close_channel.Marshal v) bean.Close_channel.zero =
      bean.Close_channel.zero := by
  constructor <;> rfl

/-- C10: evaluation of the round trip at the `open_channel` payload
`Scenario.openChannel` and at the `close_channel` payload
`Scenario.closeChannel`.  The encoding of the former holds only `chain_hash`
and `temporary_channel_id`; decoding it loses `funding_satoshis = 100000`,
`to_self_delay`, `max_accepted_htlcs` and `funding_pubkey`, so the result
differs from the original.  The encoding of the latter is the empty object
and decodes to the zero value. -/
theorem OpenChannelInfo_roundtrip_loses_fields :
    bean.OpenChannelInfo.Marshal Scenario.openChannel =
      [("chain_hash", json.Value.Bytes [1]), ("temporary_channel_id", json.Value.Bytes [2])] ∧
    bean.OpenChannelInfo.Unmarshal (bean.OpenChannelInfo.Marshal Scenario.openChannel)
        bean.OpenChannelInfo.zero =
      { bean.OpenChannelInfo.zero with Chain_hash := [1], Temporary_channel_id := [2] } ∧
    (bean.OpenChannelInfo.Unmarshal (bean.OpenChannelInfo.Marshal Scenario.openChannel)
        bean.OpenChannelInfo.zero).funding_satoshis = 0 ∧
    Scenario.openChannel.funding_satoshis = 100000 ∧
    bean.OpenChannelInfo.Unmarshal (bean.OpenChannelInfo.Marshal Scenario.openChannel)
        bean.OpenChannelInfo.zero ≠ Scenario.openChannel ∧
    bean.Close_channel.Marshal Scenario.closeChannel = [] ∧
    bean.Close_channel.Unmarshal (bean.Close_channel.Marshal Scenario.closeChannel)
        bean.Close_channel.zero ≠ Scenario.closeChannel := by
  decide

/-- The call `checkBtcTxHex` aborts (index out of range) exactly when `vin` is
an array without entries; in particular a first input without `txid` does not
abort it. -/
theorem checkBtcTxHex_panic_iff {σ R F : Type} [Zero F] (env : service.Env σ R F)
    (btcFeeTxHexDecode : String) (channelInfo : dao.ChannelInfo) (peerId : String)
    (s : σ) :
    service.checkBtcTxHex env btcFeeTxHexDecode channelInfo peerId s = none ↔
      (env.gj.IsArray (env.gj.Get (env.gj.Parse btcFeeTxHexDecode) "vin") = true ∧
        env.gj.Array (env.gj.Get (env.gj.Parse btcFeeTxHexDecode) "vin") = []) := by
  have hvinNone : service.checkBtcTxHex.vin env (env.gj.Parse btcFeeTxHexDecode)
      channelInfo peerId s = none ↔
      (env.gj.IsArray (env.gj.Get (env.gj.Parse btcFeeTxHexDecode) "vin") = true ∧
        env.gj.Array (env.gj.Get (env.gj.Parse btcFeeTxHexDecode) "vin") = []) := by
    unfold service.checkBtcTxHex.vin
    by_cases harr : env.gj.IsArray (env.gj.Get (env.gj.Parse btcFeeTxHexDecode) "vin") = true
    · cases hl : env.gj.Array (env.gj.Get (env.gj.Parse btcFeeTxHexDecode) "vin") with
      | nil => simp [harr]
      | cons vin0 rest =>
        rcases h1 : env.rpcClient.GetTransactionById (env.gj.String (env.gj.Get vin0 "txid"))
          s with ⟨e | inputTx, s1⟩
        · simp [harr, h1]
        · rcases h2 : env.rpcClient.DecodeRawTransaction
            (env.gj.String (env.gj.Get (env.gj.Parse inputTx) "hex")) s1 with ⟨e | dec, s2⟩
          · simp [harr, h1, h2]
          · simp [harr, h1, h2]
            split <;> simp
    · have harr2 : env.gj.IsArray (env.gj.Get (env.gj.Parse btcFeeTxHexDecode) "vin") =
          false := by simpa using harr
      simp [harr2]
  rw [← hvinNone]
  rcases hv : service.checkBtcTxHex.vin env (env.gj.Parse btcFeeTxHexDecode) channelInfo
    peerId s with _ | ⟨_ | e, s1⟩ <;> simp [service.checkBtcTxHex, hv]

/-- C11: evaluation of `checkBtcTxHex` at the funding transaction
`Scenario.fundingTxNoInput`, whose `vin` is an array without entries: the
guard `IsArray` passes, the array is empty, and the call aborts on the index
expression `Array()[0]` instead of returning an error. -/
theorem checkBtcTxHex_empty_vin_aborts :
    Scenario.envNoInput.gj.IsArray
      (Scenario.envNoInput.gj.Get (Scenario.envNoInput.gj.Parse "fundingTxNoInput") "vin") =
        true ∧
    (Scenario.envNoInput.gj.Array
      (Scenario.envNoInput.gj.Get (Scenario.envNoInput.gj.Parse "fundingTxNoInput")
        "vin")).length = 0 ∧
    service.checkBtcTxHex Scenario.envNoInput "fundingTxNoInput" Scenario.channel "alice" 0 =
      none := by
  decide

/-- A string has length zero exactly when it is the empty string. -/
theorem length_eq_zero_iff_empty (str : String) : str.length = 0 ↔ str = "" := by
  cases str with
  | mk l =>
    cases l with
    | nil => simp
    | cons a t =>
      simp only [String.length, List.length_cons, Nat.add_one_ne_zero, false_iff]
      intro h
      have h2 := congrArg String.data h
      simp at h2

/-- The test of step 1 in `CheckMultiSign` passes a token list exactly when it
has four tokens of which tokens 1 and 2 are not both `"0"`. -/
theorem step1_test_iff (asmArr : List String) :
    (asmArr.length != 4 || (asmArr.getD 1 "" == "0" && asmArr.getD 2 "" == "0")) = false ↔
      ∃ t0 t1 t2 t3, asmArr = [t0, t1, t2, t3] ∧ ¬ (t1 = "0" ∧ t2 = "0") := by
  rcases asmArr with _ | ⟨a, _ | ⟨b, _ | ⟨c, _ | ⟨d, _ | ⟨e, t⟩⟩⟩⟩⟩ <;> simp
  constructor
  · intro h
    exact ⟨a, b, c, ⟨rfl, rfl, rfl⟩, h⟩
  · rintro ⟨_, _, _, ⟨rfl, rfl, rfl⟩, h⟩
    exact h

/-- The test of step 2 in `CheckMultiSign` passes a token list exactly when it
has four tokens of which neither token 1 nor token 2 is `"0"`. -/
theorem step2_test_iff (asmArr : List String) :
    (asmArr.length != 4 || asmArr.getD 1 "" == "0" || asmArr.getD 2 "" == "0") = false ↔
      ∃ t0 t1 t2 t3, asmArr = [t0, t1, t2, t3] ∧ t1 ≠ "0" ∧ t2 ≠ "0" := by
  rcases asmArr with _ | ⟨a, _ | ⟨b, _ | ⟨c, _ | ⟨d, _ | ⟨e, t⟩⟩⟩⟩⟩ <;> simp
  constructor
  · intro h
    exact ⟨a, b, c, ⟨rfl, rfl, rfl⟩, h⟩
  · rintro ⟨_, _, _, ⟨rfl, rfl, rfl⟩, h⟩
    exact h

/-- The loop of `CheckMultiSign` ends with `(true, nil)` or with
`(false, "err sign")`; it ends with `(true, nil)` exactly when every input
passes the test of the step (no test for a step other than 1 and 2). -/
theorem CheckMultiSign_loop_spec {R F : Type} (gj : gjson.Lib R F) (Str : R → String)
    (step : Int) (vins : List R) :
    (rpc.CheckMultiSign.loop gj Str step vins = (true, none) ∨
      rpc.CheckMultiSign.loop gj Str step vins = (false, some "err sign")) ∧
    (rpc.CheckMultiSign.loop gj Str step vins = (true, none) ↔
      ∀ vin ∈ vins,
        (step = 1 → ∃ t0 t1 t2 t3,
          strings.Split (Str (gj.Get (gj.Get vin "scriptSig") "asm")) ' ' = [t0, t1, t2, t3] ∧
            ¬ (t1 = "0" ∧ t2 = "0")) ∧
        (step = 2 → ∃ t0 t1 t2 t3,
          strings.Split (Str (gj.Get (gj.Get vin "scriptSig") "asm")) ' ' = [t0, t1, t2, t3] ∧
            t1 ≠ "0" ∧ t2 ≠ "0")) := by
  induction vins with
  | nil => simp [rpc.CheckMultiSign.loop]
  | cons vin rest ih =>
    have h1 := step1_test_iff (strings.Split (Str (gj.Get (gj.Get vin "scriptSig") "asm")) ' ')
    have h2 := step2_test_iff (strings.Split (Str (gj.Get (gj.Get vin "scriptSig") "asm")) ' ')
    simp only [List.mem_cons, forall_eq_or_imp]
    rw [← h1, ← h2]
    have hloop : rpc.CheckMultiSign.loop gj Str step (vin :: rest) =
        if (step == 1 &&
            ((strings.Split (Str (gj.Get (gj.Get vin "scriptSig") "asm")) ' ').length != 4 ||
              ((strings.Split (Str (gj.Get (gj.Get vin "scriptSig") "asm")) ' ').getD 1 ""
                  == "0" &&
                (strings.Split (Str (gj.Get (gj.Get vin "scriptSig") "asm")) ' ').getD 2 ""
                  == "0"))) = true then
          (false, some "err sign")
        else if (step == 2 &&
            ((strings.Split (Str (gj.Get (gj.Get vin "scriptSig") "asm")) ' ').length != 4 ||
              (strings.Split (Str (gj.Get (gj.Get vin "scriptSig") "asm")) ' ').getD 1 ""
                == "0" ||
              (strings.Split (Str (gj.Get (gj.Get vin "scriptSig") "asm")) ' ').getD 2 ""
                == "0")) = true then
          (false, some "err sign")
        else rpc.CheckMultiSign.loop gj Str step rest := rfl
    rw [hloop]
    clear h1 h2 hloop
    generalize ((strings.Split (Str (gj.Get (gj.Get vin "scriptSig") "asm")) ' ').length != 4 ||
      ((strings.Split (Str (gj.Get (gj.Get vin "scriptSig") "asm")) ' ').getD 1 "" == "0" &&
        (strings.Split (Str (gj.Get (gj.Get vin "scriptSig") "asm")) ' ').getD 2 "" == "0")) =
      b1
    generalize ((strings.Split (Str (gj.Get (gj.Get vin "scriptSig") "asm")) ' ').length != 4 ||
      (strings.Split (Str (gj.Get (gj.Get vin "scriptSig") "asm")) ' ').getD 1 "" == "0" ||
      (strings.Split (Str (gj.Get (gj.Get vin "scriptSig") "asm")) ' ').getD 2 "" == "0") = b2
    obtain ⟨ihA, ihB⟩ := ih
    rw [← ihB]
    clear ihB
    generalize rpc.CheckMultiSign.loop gj Str step rest = L at ihA ⊢
    by_cases hs1 : step = 1
    · subst hs1
      cases b1 <;> rcases ihA with h | h <;> simp [h]
    · by_cases hs2 : step = 2
      · subst hs2
        cases b2 <;> rcases ihA with h | h <;> simp [h]
      · rcases ihA with h | h <;> simp [h, hs1, hs2]

/-- C12: `CheckMultiSign` returns `(false, "Empty hex")` for an empty hex.  For
a non-empty hex, with the inputs read from `vin` of the decoded transaction and
each `scriptSig.asm` split on single spaces into tokens numbered from 0: at
step 1 it returns `(true, nil)` exactly when every input has four tokens of
which tokens 1 and 2 are not both `"0"`; at step 2 exactly when every input has
four tokens of which neither token 1 nor token 2 is `"0"`; any other result is
`(false, "err sign")`, and a step other than 1 and 2 passes.  A hex that passes
step 2 passes step 1, and the result does not depend on `sendedInput`. -/
theorem CheckMultiSign_spec {R F : Type} (gj : gjson.Lib R F) (Str : R → String)
    (DecodeBtcRawTransaction : String → String × Error) (sendedInput : Bool) (hex : String)
    (step : Int) :
    (hex = "" →
      rpc.CheckMultiSign gj Str DecodeBtcRawTransaction sendedInput hex step =
        (false, some "Empty hex")) ∧
    (hex ≠ "" →
      (rpc.CheckMultiSign gj Str DecodeBtcRawTransaction sendedInput hex 1 = (true, none) ↔
        ∀ vin ∈ gj.Array (gj.Get (gj.Parse (DecodeBtcRawTransaction hex).1) "vin"),
          ∃ t0 t1 t2 t3,
            strings.Split (Str (gj.Get (gj.Get vin "scriptSig") "asm")) ' ' =
              [t0, t1, t2, t3] ∧ ¬ (t1 = "0" ∧ t2 = "0")) ∧
      (rpc.CheckMultiSign gj Str DecodeBtcRawTransaction sendedInput hex 2 = (true, none) ↔
        ∀ vin ∈ gj.Array (gj.Get (gj.Parse (DecodeBtcRawTransaction hex).1) "vin"),
          ∃ t0 t1 t2 t3,
            strings.Split (Str (gj.Get (gj.Get vin "scriptSig") "asm")) ' ' =
              [t0, t1, t2, t3] ∧ t1 ≠ "0" ∧ t2 ≠ "0") ∧
      (rpc.CheckMultiSign gj Str DecodeBtcRawTransaction sendedInput hex step = (true, none) ∨
        rpc.CheckMultiSign gj Str DecodeBtcRawTransaction sendedInput hex step =
          (false, some "err sign")) ∧
      (step ≠ 1 → step ≠ 2 →
        rpc.CheckMultiSign gj Str DecodeBtcRawTransaction sendedInput hex step =
          (true, none))) ∧
    (rpc.CheckMultiSign gj Str DecodeBtcRawTransaction sendedInput hex 2 = (true, none) →
      rpc.CheckMultiSign gj Str DecodeBtcRawTransaction sendedInput hex 1 = (true, none)) ∧
    (∀ other : Bool,
      rpc.CheckMultiSign gj Str DecodeBtcRawTransaction other hex step =
        rpc.CheckMultiSign gj Str DecodeBtcRawTransaction sendedInput hex step) := by
  have hEmpty : hex = "" → ∀ st : Int,
      rpc.CheckMultiSign gj Str DecodeBtcRawTransaction sendedInput hex st =
        (false, some "Empty hex") := by
    intro h st
    subst h
    simp [rpc.CheckMultiSign]
  have hLoop : hex ≠ "" → ∀ st : Int,
      rpc.CheckMultiSign gj Str DecodeBtcRawTransaction sendedInput hex st =
        rpc.CheckMultiSign.loop gj Str st
          (gj.Array (gj.Get (gj.Parse (DecodeBtcRawTransaction hex).1) "vin")) := by
    intro h st
    have hlen : ¬ hex.length = 0 := fun h0 => h ((length_eq_zero_iff_empty hex).1 h0)
    simp [rpc.CheckMultiSign, hlen]
  have h1 := CheckMultiSign_loop_spec gj Str 1
    (gj.Array (gj.Get (gj.Parse (DecodeBtcRawTransaction hex).1) "vin"))
  have h2 := CheckMultiSign_loop_spec gj Str 2
    (gj.Array (gj.Get (gj.Parse (DecodeBtcRawTransaction hex).1) "vin"))
  have hs := CheckMultiSign_loop_spec gj Str step
    (gj.Array (gj.Get (gj.Parse (DecodeBtcRawTransaction hex).1) "vin"))
  simp only [true_implies, false_implies, and_true, true_and,
    show ((1 : Int) = 2) = False from by simp, show ((2 : Int) = 1) = False from by simp]
    at h1 h2
  refine ⟨fun h => hEmpty h step, ?_, ?_, fun _ => rfl⟩
  · intro hne
    rw [hLoop hne 1, hLoop hne 2, hLoop hne step]
    refine ⟨h1.2, h2.2, hs.1, ?_⟩
    intro hn1 hn2
    rw [hs.2]
    intro vin _
    exact ⟨fun h => absurd h hn1, fun h => absurd h hn2⟩
  · intro hpass
    by_cases hne : hex = ""
    · rw [hEmpty hne 2] at hpass
      cases hpass
    · rw [hLoop hne 2] at hpass
      rw [hLoop hne 1, h1.2]
      intro vin hvin
      obtain ⟨t0, t1, t2, t3, hsplit, ht1, _⟩ := (h2.2.1 hpass) vin hvin
      exact ⟨t0, t1, t2, t3, hsplit, fun h => ht1 h.1⟩

/-- C12 at three spends of the channel output: the fully signed one passes
step 2 and hence step 1, the half signed one (`"0 sigA 0 script"`) passes step
1 and fails step 2, the unsigned one (`"0 0 0 script"`) fails step 1, and the
empty hex is refused. -/
theorem CheckMultiSign_spec_witness :
    rpc.CheckMultiSign Scenario.signLib gjson.nodeStr Scenario.decodeBtc true "hexFull" 1 =
      (true, none) ∧
    rpc.CheckMultiSign Scenario.signLib gjson.nodeStr Scenario.decodeBtc true "hexHalf" 1 =
      (true, none) ∧
    rpc.CheckMultiSign Scenario.signLib gjson.nodeStr Scenario.decodeBtc true "hexHalf" 2 =
      (false, some "err sign") ∧
    rpc.CheckMultiSign Scenario.signLib gjson.nodeStr Scenario.decodeBtc true "hexUnsigned" 1 =
      (false, some "err sign") ∧
    rpc.CheckMultiSign Scenario.signLib gjson.nodeStr Scenario.decodeBtc true "" 1 =
      (false, some "Empty hex") :=
  ⟨(CheckMultiSign_spec Scenario.signLib gjson.nodeStr Scenario.decodeBtc true "hexFull"
      1).2.2.1 (by decide),
    by decide, by decide, by decide,
    (CheckMultiSign_spec Scenario.signLib gjson.nodeStr Scenario.decodeBtc true "" 1).1 rfl⟩
